import Mathlib

/-!
Verification development for the conversational agent core of a voice
assistant.  The Python source (engine/orchestrator.py, engine/workflow.py,
engine/search.py, engine/input_filter.py, engine/fast_path.py,
voice_assistant/tools/datetime_tool.py, voice_assistant/tools/web_search.py)
is shallowly embedded: text is `List Char` (Python strings index by
character, exactly as `List Char` does), Python floats appearing in the
input-quality thresholds are embedded as rationals (the decimal literals
involved, 0.6 / 0.59 / 0.61, are ordered the same way as their IEEE-754
doubles, so the comparisons agree), and calls to the outside world (LLM
providers, the tool dispatcher, web-search HTTP APIs, `json.loads`) are
modelled as explicit oracle parameters indexed by call count.
-/

namespace AgentCore

/-- Character-list text, mirroring a Python `str` (which slices and
measures by characters). -/
abbrev Str := List Char

/-- Python `str.strip()` — drop whitespace from both ends. -/
def pyStripWs (cs : Str) : Str :=
  ((cs.dropWhile Char.isWhitespace).reverse.dropWhile Char.isWhitespace).reverse

/-- Python `str.rstrip(chars)` — drop trailing characters from the set. -/
def pyRstrip (set : List Char) (cs : Str) : Str :=
  (cs.reverse.dropWhile (fun c => set.contains c)).reverse

/-- Python `str.lstrip(chars)` — drop leading characters from the set. -/
def pyLstrip (set : List Char) (cs : Str) : Str :=
  cs.dropWhile (fun c => set.contains c)

/-- Python `str.strip(chars)` — drop the characters of the set from both
ends. -/
def pyStripChars (set : List Char) (cs : Str) : Str :=
  pyRstrip set (pyLstrip set cs)

/-- Python `str.lower()` on the character level. -/
def pyLower (cs : Str) : Str := cs.map Char.toLower

/-- Python `str.split()` with no argument: split on whitespace runs and
drop empty pieces. -/
def pySplitWs (cs : Str) : List Str :=
  (cs.splitOnP Char.isWhitespace).filter (fun w => w ≠ [])

/-- Python `text.split(sep)` for a single-character separator. -/
def pySplitChar (sep : Char) (cs : Str) : List Str :=
  cs.splitOn sep

-- ════════════════════════════════════════════════════════════
-- engine/input_filter.py
-- ════════════════════════════════════════════════════════════

/-- The three quality classes returned by `engine/input_filter.classify`. -/
inductive InputQuality where
  | valid
  | garbage
  | lowQuality
deriving DecidableEq, Repr

/-- `_GARBAGE_WORDS` from engine/input_filter.py. -/
def garbageWords : List Str :=
  [ "you".data, "the".data, "a".data, "i".data, "um".data, "uh".data,
    "hmm".data, "oh".data, "ah".data, "eh".data,
    "beep".data, "boop".data, "okay".data, "ok".data, "yeah".data,
    "yes".data, "no".data, "so".data,
    "well".data, "right".data, "like".data, "just".data, "but".data,
    "and".data, "or".data, "if".data, "it".data,
    "something".data, "nothing".data, "uh-huh".data, "mm-hmm".data,
    "mhm".data, "huh".data ]

/-- `\w` for the hallucination regex (ASCII word character; the inputs the
filter sees are ASCII transcriptions). -/
def isWordChar (c : Char) : Bool := c.isAlphanum || c = '_'

/-- Hallucination pattern 1, regex `^[\s\.\,\!\?\-…]+$`: one or more
characters, all punctuation or whitespace. -/
def hallucOnlyPunct (clean : Str) : Bool :=
  clean ≠ [] && clean.all (fun c => c.isWhitespace || ['.', ',', '!', '?', '-', '…'].contains c)

/-- Hallucination pattern 2, regex `^(\w+\s*)\1\x7b2,\x7d$` with
IGNORECASE: the whole text is some unit (a word plus optional trailing
whitespace) repeated at least three times, compared case-insensitively. -/
def hallucRepeatedWord (clean : Str) : Bool :=
  let lc := pyLower clean
  (List.range lc.length).any fun lm1 =>
    let l := lm1 + 1
    let u := lc.take l
    let w := u.takeWhile isWordChar
    let sp := u.dropWhile isWordChar
    w ≠ [] && sp.all Char.isWhitespace &&
      lc.length % l = 0 && 3 ≤ lc.length / l &&
      lc = (List.replicate (lc.length / l) u).flatten

/-- Hallucination pattern 3, regex `^\(.*\)$` (no DOTALL): fully
parenthesized single-line text. -/
def hallucParenthetical (clean : Str) : Bool :=
  2 ≤ clean.length && clean.head? = some '(' && clean.getLast? = some ')' &&
    ((clean.drop 1).dropLast.all (fun c => c ≠ '\n'))

/-- Hallucination pattern 4, regex `^♪`: leading music note. -/
def hallucMusicNote (clean : Str) : Bool :=
  clean.head? = some '♪'

/-- Any of the four `_HALLUCINATION_PATTERNS` matches. -/
def hallucinationMatch (clean : Str) : Bool :=
  hallucOnlyPunct clean || hallucRepeatedWord clean ||
    hallucParenthetical clean || hallucMusicNote clean

/-- The word list computed by `classify`:
`clean.rstrip("?.!,").split()`. -/
def classifyWords (clean : Str) : List Str :=
  pySplitWs (pyRstrip ['?', '.', '!', ','] clean)

/-- Single-word garbage rule: one word whose lowered, `.-`-stripped form
is in the garbage set. -/
def singleWordGarbage (words : List Str) : Bool :=
  words.length = 1 &&
    garbageWords.contains (pyStripChars ['.', '-'] (pyLower (words.getD 0 [])))

/-- Two-word garbage rule: both words, lowered and `?.!,-`-stripped, are
in the garbage set. -/
def twoWordGarbage (words : List Str) : Bool :=
  words.length = 2 &&
    garbageWords.contains (pyStripChars ['?', '.', '!', ',', '-'] (pyLower (words.getD 0 []))) &&
    garbageWords.contains (pyStripChars ['?', '.', '!', ',', '-'] (pyLower (words.getD 1 [])))

/-- `engine/input_filter.classify`, with Whisper's float metrics embedded
as rationals. -/
def classify (text : Str) (noSpeechProb avgLogprob audioDurationS : ℚ) :
    InputQuality :=
  let clean := pyStripWs text
  if clean = [] then .garbage
  else if 0 < audioDurationS ∧ audioDurationS < 6/10 then .garbage
  else if noSpeechProb > 6/10 then .garbage
  else if hallucinationMatch clean then .garbage
  else
    let words := classifyWords clean
    if singleWordGarbage words then .garbage
    else if avgLogprob < -1 ∧ words.length ≤ 3 then .lowQuality
    else if twoWordGarbage words then .garbage
    else .valid

-- ════════════════════════════════════════════════════════════
-- engine/search.py — Tavily -> Brave -> DuckDuckGo fallback chain
-- ════════════════════════════════════════════════════════════

/-- One raw result entry as delivered by a provider API, before
formatting.  The snippet source field (`content` / `description` /
`body`, depending on the provider) is called `body` here. -/
structure RawRow where
  title : Str
  url : Str
  body : Str
deriving DecidableEq, Repr

/-- One formatted result row, `\x7b"title", "url", "snippet"\x7d`. -/
structure SearchRow where
  title : Str
  url : Str
  snippet : Str
deriving DecidableEq, Repr

/-- The dict returned by a successful provider:
`\x7b"provider", "query", "results"\x7d`. -/
structure SearchData where
  provider : Str
  query : Str
  results : List SearchRow
deriving DecidableEq, Repr

/-- `MAX_RESULTS` in engine/search.py. -/
def MAX_RESULTS : Nat := 4

/-- `SNIPPET_MAX_LEN` in engine/search.py. -/
def SNIPPET_MAX_LEN : Nat := 200

/-- The per-provider formatting loop shared by the three providers in
engine/search.py: keep at most `MAX_RESULTS` rows and truncate each
snippet to `SNIPPET_MAX_LEN` characters. -/
def formatRows (raw : List RawRow) : List SearchRow :=
  (raw.take MAX_RESULTS).map fun r =>
    ⟨r.title, r.url, r.body.take SNIPPET_MAX_LEN⟩

/-- A provider HTTP interaction: either an exception (connection error,
non-2xx status, bad JSON — all caught by the provider helper) or the raw
result list. -/
abbrev ProviderResp := Except Unit (List RawRow)

/-- `engine/search._search_tavily`: `None` on exception or when the
formatted result list is empty, else the result dict. -/
def searchTavily (resp : ProviderResp) (query : Str) : Option SearchData :=
  match resp with
  | .error _ => none
  | .ok raw =>
    let results := formatRows raw
    if results ≠ [] then some ⟨"tavily".data, query, results⟩ else none

/-- `engine/search._search_brave`: same shape as Tavily. -/
def searchBrave (resp : ProviderResp) (query : Str) : Option SearchData :=
  match resp with
  | .error _ => none
  | .ok raw =>
    let results := formatRows raw
    if results ≠ [] then some ⟨"brave".data, query, results⟩ else none

/-- `engine/search._search_duckduckgo`: the inner sync helper returns `[]`
on exception; the outer wrapper returns the dict only when the formatted
list is nonempty. -/
def searchDuckduckgo (resp : ProviderResp) (query : Str) : Option SearchData :=
  let results := match resp with
    | .error _ => []
    | .ok raw => formatRows raw
  if results ≠ [] then some ⟨"duckduckgo".data, query, results⟩ else none

/-- API-key configuration of engine/search.py (module-level
`TAVILY_API_KEY` / `BRAVE_API_KEY`; an empty string means unset).
DuckDuckGo needs no key. -/
structure SearchKeys where
  tavilyKey : Str
  braveKey : Str
deriving Repr

/-- The external world for one `search` call: each provider's response
were it contacted. -/
structure SearchEnv where
  tavily : ProviderResp
  brave : ProviderResp
  ddg : ProviderResp

/-- Result of the fallback chain plus the ordered list of providers that
were actually attempted (instrumentation over the source's control
flow). -/
structure SearchOutcome where
  result : Option SearchData
  attempts : List Str
deriving Repr

/-- `engine/search.search`: ordered fallback Tavily -> Brave ->
DuckDuckGo.  Tavily runs only with a key, Brave only with a key and only
if no result yet, DuckDuckGo whenever there is still no result. -/
def searchChain (keys : SearchKeys) (env : SearchEnv) (query : Str) :
    SearchOutcome :=
  let s0 : SearchOutcome := ⟨none, []⟩
  let s1 := if keys.tavilyKey ≠ [] then
      ⟨searchTavily env.tavily query, s0.attempts ++ ["tavily".data]⟩
    else s0
  let s2 := if s1.result.isNone ∧ keys.braveKey ≠ [] then
      ⟨searchBrave env.brave query, s1.attempts ++ ["brave".data]⟩
    else s1
  if s2.result.isNone then
    ⟨searchDuckduckgo env.ddg query, s2.attempts ++ ["duckduckgo".data]⟩
  else s2

/-- The formatted rows a provider response would yield (empty on
exception).  A provider attempt succeeds exactly when this list is
nonempty. -/
def formattedRowsOf (resp : ProviderResp) : List SearchRow :=
  match resp with
  | .error _ => []
  | .ok raw => formatRows raw

/-- `engine/search.format_results_for_context`: header line, one numbered
line per result, an indented snippet line when the snippet is nonempty,
and a trailing blank line. -/
def formatResultsForContext (data : Option SearchData) : Str :=
  match data with
  | none => []
  | some d =>
    if d.results = [] then []
    else
      let header := "Web search results for \"".data ++ d.query ++ "\":".data
      let body := (d.results.enumFrom 1).flatMap fun ri =>
        let numbered := '\n' :: (Nat.toDigits 10 ri.1) ++ ". ".data ++
          ri.2.title ++ " (".data ++ ri.2.url ++ ")".data
        if ri.2.snippet ≠ [] then
          numbered ++ '\n' :: "   ".data ++ ri.2.snippet
        else numbered
      header ++ body ++ "\n".data

-- ════════════════════════════════════════════════════════════
-- voice_assistant/tools/datetime_tool.py — timezone lookup
-- ════════════════════════════════════════════════════════════

/-- The `us_states` table of `_build_timezone_lookup`. -/
def usStates : List (Str × Str) :=
  [ ("new york state".data, "America/New_York".data),
    ("connecticut".data, "America/New_York".data),
    ("delaware".data, "America/New_York".data),
    ("florida".data, "America/New_York".data),
    ("georgia".data, "America/New_York".data),
    ("maine".data, "America/New_York".data),
    ("maryland".data, "America/New_York".data),
    ("massachusetts".data, "America/New_York".data),
    ("michigan".data, "America/Detroit".data),
    ("new hampshire".data, "America/New_York".data),
    ("new jersey".data, "America/New_York".data),
    ("north carolina".data, "America/New_York".data),
    ("ohio".data, "America/New_York".data),
    ("pennsylvania".data, "America/New_York".data),
    ("rhode island".data, "America/New_York".data),
    ("south carolina".data, "America/New_York".data),
    ("vermont".data, "America/New_York".data),
    ("virginia".data, "America/New_York".data),
    ("washington dc".data, "America/New_York".data),
    ("dc".data, "America/New_York".data),
    ("west virginia".data, "America/New_York".data),
    ("alabama".data, "America/Chicago".data),
    ("arkansas".data, "America/Chicago".data),
    ("illinois".data, "America/Chicago".data),
    ("iowa".data, "America/Chicago".data),
    ("kansas".data, "America/Chicago".data),
    ("kentucky".data, "America/New_York".data),
    ("louisiana".data, "America/Chicago".data),
    ("minnesota".data, "America/Chicago".data),
    ("mississippi".data, "America/Chicago".data),
    ("missouri".data, "America/Chicago".data),
    ("nebraska".data, "America/Chicago".data),
    ("north dakota".data, "America/Chicago".data),
    ("oklahoma".data, "America/Chicago".data),
    ("south dakota".data, "America/Chicago".data),
    ("tennessee".data, "America/Chicago".data),
    ("texas".data, "America/Chicago".data),
    ("wisconsin".data, "America/Chicago".data),
    ("arizona".data, "America/Phoenix".data),
    ("colorado".data, "America/Denver".data),
    ("idaho".data, "America/Boise".data),
    ("montana".data, "America/Denver".data),
    ("new mexico".data, "America/Denver".data),
    ("utah".data, "America/Denver".data),
    ("wyoming".data, "America/Denver".data),
    ("california".data, "America/Los_Angeles".data),
    ("nevada".data, "America/Los_Angeles".data),
    ("oregon".data, "America/Los_Angeles".data),
    ("washington".data, "America/Los_Angeles".data),
    ("washington state".data, "America/Los_Angeles".data),
    ("alaska".data, "America/Anchorage".data),
    ("hawaii".data, "Pacific/Honolulu".data) ]

/-- The `countries` table of `_build_timezone_lookup`. -/
def countryTable : List (Str × Str) :=
  [ ("japan".data, "Asia/Tokyo".data),
    ("china".data, "Asia/Shanghai".data),
    ("india".data, "Asia/Kolkata".data),
    ("germany".data, "Europe/Berlin".data),
    ("france".data, "Europe/Paris".data),
    ("italy".data, "Europe/Rome".data),
    ("spain".data, "Europe/Madrid".data),
    ("uk".data, "Europe/London".data),
    ("united kingdom".data, "Europe/London".data),
    ("england".data, "Europe/London".data),
    ("scotland".data, "Europe/London".data),
    ("ireland".data, "Europe/Dublin".data),
    ("australia".data, "Australia/Sydney".data),
    ("brazil".data, "America/Sao_Paulo".data),
    ("mexico".data, "America/Mexico_City".data),
    ("canada".data, "America/Toronto".data),
    ("south korea".data, "Asia/Seoul".data),
    ("korea".data, "Asia/Seoul".data),
    ("russia".data, "Europe/Moscow".data),
    ("turkey".data, "Europe/Istanbul".data),
    ("egypt".data, "Africa/Cairo".data),
    ("south africa".data, "Africa/Johannesburg".data),
    ("nigeria".data, "Africa/Lagos".data),
    ("kenya".data, "Africa/Nairobi".data),
    ("thailand".data, "Asia/Bangkok".data),
    ("vietnam".data, "Asia/Ho_Chi_Minh".data),
    ("indonesia".data, "Asia/Jakarta".data),
    ("philippines".data, "Asia/Manila".data),
    ("malaysia".data, "Asia/Kuala_Lumpur".data),
    ("pakistan".data, "Asia/Karachi".data),
    ("saudi arabia".data, "Asia/Riyadh".data),
    ("israel".data, "Asia/Jerusalem".data),
    ("uae".data, "Asia/Dubai".data),
    ("united arab emirates".data, "Asia/Dubai".data),
    ("argentina".data, "America/Argentina/Buenos_Aires".data),
    ("colombia".data, "America/Bogota".data),
    ("chile".data, "America/Santiago".data),
    ("peru".data, "America/Lima".data),
    ("new zealand".data, "Pacific/Auckland".data),
    ("portugal".data, "Europe/Lisbon".data),
    ("netherlands".data, "Europe/Amsterdam".data),
    ("belgium".data, "Europe/Brussels".data),
    ("switzerland".data, "Europe/Zurich".data),
    ("austria".data, "Europe/Vienna".data),
    ("sweden".data, "Europe/Stockholm".data),
    ("norway".data, "Europe/Oslo".data),
    ("denmark".data, "Europe/Copenhagen".data),
    ("finland".data, "Europe/Helsinki".data),
    ("poland".data, "Europe/Warsaw".data),
    ("czech republic".data, "Europe/Prague".data),
    ("greece".data, "Europe/Athens".data),
    ("taiwan".data, "Asia/Taipei".data) ]

/-- The `aliases` table of `_build_timezone_lookup`. -/
def cityAliases : List (Str × Str) :=
  [ ("nyc".data, "America/New_York".data),
    ("ny".data, "America/New_York".data),
    ("la".data, "America/Los_Angeles".data),
    ("sf".data, "America/Los_Angeles".data),
    ("san fran".data, "America/Los_Angeles".data),
    ("seattle".data, "America/Los_Angeles".data),
    ("portland".data, "America/Los_Angeles".data),
    ("vegas".data, "America/Los_Angeles".data),
    ("las vegas".data, "America/Los_Angeles".data),
    ("dallas".data, "America/Chicago".data),
    ("austin".data, "America/Chicago".data),
    ("houston".data, "America/Chicago".data),
    ("san antonio".data, "America/Chicago".data),
    ("atlanta".data, "America/New_York".data),
    ("miami".data, "America/New_York".data),
    ("boston".data, "America/New_York".data),
    ("philly".data, "America/New_York".data),
    ("philadelphia".data, "America/New_York".data),
    ("detroit".data, "America/Detroit".data),
    ("minneapolis".data, "America/Chicago".data),
    ("st louis".data, "America/Chicago".data),
    ("st. louis".data, "America/Chicago".data),
    ("new delhi".data, "Asia/Kolkata".data),
    ("delhi".data, "Asia/Kolkata".data),
    ("mumbai".data, "Asia/Kolkata".data),
    ("bombay".data, "Asia/Kolkata".data),
    ("calcutta".data, "Asia/Kolkata".data),
    ("bangalore".data, "Asia/Kolkata".data),
    ("chennai".data, "Asia/Kolkata".data),
    ("hyderabad".data, "Asia/Kolkata".data),
    ("beijing".data, "Asia/Shanghai".data),
    ("peking".data, "Asia/Shanghai".data),
    ("guangzhou".data, "Asia/Shanghai".data),
    ("shenzhen".data, "Asia/Shanghai".data),
    ("hong kong".data, "Asia/Hong_Kong".data),
    ("hk".data, "Asia/Hong_Kong".data),
    ("mexico city".data, "America/Mexico_City".data),
    ("sao paulo".data, "America/Sao_Paulo".data),
    ("rio".data, "America/Sao_Paulo".data),
    ("rio de janeiro".data, "America/Sao_Paulo".data),
    ("buenos aires".data, "America/Argentina/Buenos_Aires".data) ]

/-- The auto-extracted entries of `_build_timezone_lookup`: for every
IANA name containing a slash and not starting with `Etc/`, map its last
component (underscores to spaces, lowercased) to the full name.  The
ambient IANA database `available_timezones()` is a parameter `zones`. -/
def autoZoneEntries (zones : List Str) : List (Str × Str) :=
  (zones.filter fun z => z.contains '/' && !("Etc/".data.isPrefixOf z)).map
    fun z =>
      let city := (pySplitChar '/' z).getLastD []
      (pyLower (city.map fun c => if c = '_' then ' ' else c), z)

/-- Python `dict` lookup over insertion-ordered `(key, value)` pairs:
later insertions override earlier ones. -/
def pyDictGet (entries : List (Str × Str)) (k : Str) : Option Str :=
  entries.foldl (fun acc kv => if kv.1 = k then some kv.2 else acc) none

/-- `_build_timezone_lookup`: auto entries, then states, then countries,
then aliases; `dict.update` gives the later tables precedence, which
`pyDictGet` realizes by keeping the last match. -/
def buildTimezoneLookup (zones : List Str) : List (Str × Str) :=
  autoZoneEntries zones ++ usStates ++ countryTable ++ cityAliases

/-- `_resolve_timezone`, returning the chosen IANA name (constructing the
`ZoneInfo` object from it is outside the embedding). -/
def resolveTimezone (zones : List Str) (tzInput : Str) : Option Str :=
  if tzInput = [] then none
  else
    let clean := pyStripWs tzInput
    if zones.contains clean then some clean
    else
      let key := pyLower clean
      match pyDictGet (buildTimezoneLookup zones) key with
      | some iana => some iana
      | none =>
        if key.contains ',' then
          let cityPart := pyStripWs ((pySplitChar ',' key).getD 0 [])
          pyDictGet (buildTimezoneLookup zones) cityPart
        else none

-- ════════════════════════════════════════════════════════════
-- engine/fast_path.py — time-query branch
-- ════════════════════════════════════════════════════════════

/-- The alternatives of `(?:right now|now|currently)` in
`_clean_location`. -/
def fillerKeywords : List Str :=
  ["right now".data, "now".data, "currently".data]

/-- Whether the regex `\s+(?:right now|now|currently)\s*$` (IGNORECASE)
matches starting at offset `alen` of `cs`: nonempty whitespace, one of
the keywords, then only whitespace to the end. -/
def fillerMatchAt (cs : Str) (alen : Nat) : Bool :=
  let rest := cs.drop alen
  let w := rest.takeWhile Char.isWhitespace
  let after := pyLower (rest.dropWhile Char.isWhitespace)
  w ≠ [] && fillerKeywords.any fun kw =>
    kw.isPrefixOf after && (after.drop kw.length).all Char.isWhitespace

/-- `_clean_location`: strip whitespace, strip trailing `?.!`, remove one
trailing filler phrase (`re.sub` finds the leftmost match of the
end-anchored pattern), and strip again. -/
def cleanLocation (loc : Str) : Str :=
  let l1 := pyRstrip ['?', '.', '!'] (pyStripWs loc)
  let l2 := match (List.range (l1.length + 1)).find? (fillerMatchAt l1) with
    | some alen => l1.take alen
    | none => l1
  pyStripWs l2

/-- The time-query branch of `try_fast_path` (fast_path.py lines
100-121), given the capture group of the first matching time pattern
(`none` models a match whose location group is absent; the regex
machinery itself is Python's `re` on the source patterns and is
abstracted into this input).  `some (tz?, loc)` models returning a
formatted time response (local/client time when `tz?` is `none`);
`none` models `return None`, the fall-through to the LLM. -/
def timeBranch (zones : List Str) (group1 : Option Str) :
    Option (Option Str × Str) :=
  let locationRaw : Str := match group1 with
    | some g => if g ≠ [] then g else []
    | none => []
  let location := if locationRaw ≠ [] then cleanLocation locationRaw else []
  if location ≠ [] then
    match resolveTimezone zones location with
    | some tz => some (some tz, location)
    | none =>
      let cityPart := pyStripWs ((pySplitChar ',' location).getD 0 [])
      match resolveTimezone zones cityPart with
      | some tz => some (some tz, location)
      | none => none
  else
    some (none, [])

-- ════════════════════════════════════════════════════════════
-- engine/orchestrator.py — data model and history trimming
-- ════════════════════════════════════════════════════════════

/-- Message roles. -/
inductive Role where
  | user
  | assistant
  | tool
deriving DecidableEq, Repr

/-- A tool call as produced by engine/llm.py:
`\x7b"id": ..., "function": \x7b"name": ..., "arguments": ...\x7d\x7d`.
Argument values are modelled as strings (every argument this codebase
constructs is a string). -/
structure ToolCall where
  id : Str := []
  name : Str
  args : List (Str × Str) := []
deriving DecidableEq, Repr

/-- An internal history message.  A missing `tool_calls` key is the empty
list (Python's `msg.get("tool_calls")` is falsy for both). -/
structure Msg where
  role : Role
  content : Str
  toolCalls : List ToolCall := []
deriving DecidableEq, Repr

def mkUserMsg (s : Str) : Msg := ⟨.user, s, []⟩

def mkAssistantMsg (s : Str) : Msg := ⟨.assistant, s, []⟩

def mkToolMsg (s : Str) : Msg := ⟨.tool, s, []⟩

/-- Out-of-range default for indexing (Python would raise instead; every
access below is guarded by a bounds test exactly as in the source). -/
def dummyMsg : Msg := ⟨.user, [], []⟩

def msgGetD (msgs : List Msg) (i : Nat) : Msg := msgs.getD i dummyMsg

/-- First while loop of `_trim_history`: advance the cut past tool-role
messages.  The fuel starts at `msgs.length - cut`, which the loop can
never exhaust since every step requires `cut < msgs.length`. -/
def advanceCutAux (msgs : List Msg) : Nat → Nat → Nat
  | 0, cut => cut
  | fuel + 1, cut =>
    if cut < msgs.length ∧ (msgGetD msgs cut).role = .tool then
      advanceCutAux msgs fuel (cut + 1)
    else cut

def advanceCut (msgs : List Msg) (cut : Nat) : Nat :=
  advanceCutAux msgs (msgs.length - cut) cut

/-- Second while loop of `_trim_history` (after the initial decrement):
rewind past tool-role messages:
`while cut > 0 and messages[cut-1].role == tool: cut -= 1`. -/
def rewindCut (msgs : List Msg) : Nat → Nat
  | 0 => 0
  | cut + 1 =>
    if (msgGetD msgs cut).role = .tool then rewindCut msgs cut else cut + 1

/-- The final cut index computed by `_trim_history` (0 when the history
is within the limit and the method returns without slicing). -/
def trimCut (limit : Nat) (msgs : List Msg) : Nat :=
  if msgs.length ≤ limit then 0
  else
    let cut1 := advanceCut msgs (msgs.length - limit)
    if 0 < cut1 ∧ (msgGetD msgs (cut1 - 1)).toolCalls ≠ [] then
      rewindCut msgs (cut1 - 1)
    else cut1

/-- `Orchestrator._trim_history`: `self.messages = self.messages[cut:]`. -/
def trimHistory (limit : Nat) (msgs : List Msg) : List Msg :=
  msgs.drop (trimCut limit msgs)

/-- Data-model invariant §3(a) of the history: an assistant message
carrying tool calls is immediately followed by a tool-role message (its
first result).  `Orchestrator.chat` maintains this: it never appends an
assistant message with a nonempty `tool_calls` list without appending at
least one tool message right after it. -/
def toolGroupClosed (msgs : List Msg) : Prop :=
  ∀ i, i < msgs.length → (msgGetD msgs i).toolCalls ≠ [] →
    i + 1 < msgs.length ∧ (msgGetD msgs (i + 1)).role = .tool

instance (msgs : List Msg) : Decidable (toolGroupClosed msgs) := by
  unfold toolGroupClosed
  exact Nat.decidableBallLT _ _

/-- The cut slices through the middle of a tool group: some assistant
message with tool calls sits at `i` before the cut, and the cut position
itself still belongs to the unbroken run of tool-role messages following
`i`. -/
def cutSplitsGroup (msgs : List Msg) (cut : Nat) : Prop :=
  ∃ i, i < cut ∧ (msgGetD msgs i).toolCalls ≠ [] ∧
    cut < msgs.length ∧ (msgGetD msgs cut).role = .tool ∧
    (∀ j, i < j → j ≤ cut → (msgGetD msgs j).role = .tool)

-- ════════════════════════════════════════════════════════════
-- engine/orchestrator.py — tool dispatch wrapper
-- ════════════════════════════════════════════════════════════

/-- A Python exception as observed by the handlers:
`type(e).__name__` and `str(e)`. -/
structure PyExc where
  kind : Str
  msg : Str
deriving DecidableEq, Repr

/-- The error string for a missing dispatch function. -/
def dispatchMissing (name : Str) : Str :=
  "Error: no dispatch function configured for tool \x27".data ++ name ++
    "\x27".data

/-- The error string when the handler raises:
`f"Error executing '\x7bname\x7d': \x7btype(e).__name__\x7d: \x7be\x7d"`. -/
def dispatchErrorStr (name : Str) (e : PyExc) : Str :=
  "Error executing \x27".data ++ name ++ "\x27: ".data ++ e.kind ++
    ": ".data ++ e.msg

/-- Behavior of the configured dispatch function: invocation index, tool
name, arguments; raising is an `Except.error`. -/
abbrev DispatchFn := Nat → Str → List (Str × Str) → Except PyExc Str

/-- `Orchestrator._dispatch`.  Its Lean type is a total function into
`Str`: the wrapper never propagates an exception.  `hasDispatch` models
`self.config.dispatch is not None`. -/
def dispatchWrap (hasDispatch : Bool) (fn : DispatchFn) (n : Nat)
    (name : Str) (args : List (Str × Str)) : Str :=
  if hasDispatch then
    match fn n name args with
    | .ok s => s
    | .error e => dispatchErrorStr name e
  else dispatchMissing name

-- ════════════════════════════════════════════════════════════
-- engine/orchestrator.py — text utilities and configuration
-- ════════════════════════════════════════════════════════════

/-- Split at the first occurrence of `pat`: `some (before, after)` with
the match removed, `none` when `pat` does not occur. -/
def splitFirst (pat : Str) : Str → Option (Str × Str)
  | [] => if pat = [] then some ([], []) else none
  | c :: rest =>
    if pat.isPrefixOf (c :: rest) then some ([], (c :: rest).drop pat.length)
    else
      match splitFirst pat rest with
      | some (pre, post) => some (c :: pre, post)
      | none => none

/-- Python's `pat in hay` substring test. -/
def containsSub (hay pat : Str) : Bool := (splitFirst pat hay).isSome

/-- Worker for `stripThinkBlocks`.  The recursion consumes at least one
character of the text per step, so `fuel := cs.length` is never
exhausted; the fuel only makes the recursion structural. -/
def stripThinkAux : Nat → Str → Str
  | 0, cs => cs
  | fuel + 1, cs =>
    match splitFirst "<think>".data cs with
    | none => cs
    | some (pre, rest) =>
      match splitFirst "</think>".data rest with
      | none => cs
      | some (_, post) => pre ++ stripThinkAux fuel post

/-- Remove `<think>...</think>` blocks the way
`_THINK_RE.sub("", text)` does (non-greedy, DOTALL): repeatedly take the
first `<think>` and the first `</think>` after it; an unmatched opener
leaves the text unchanged. -/
def stripThinkBlocks (cs : Str) : Str := stripThinkAux cs.length cs

/-- `Orchestrator._strip_thinking`: scrub think blocks, then `strip()`. -/
def stripThinking (text : Str) : Str := pyStripWs (stripThinkBlocks text)

/-- `DEFAULT_HEDGING_PHRASES` from engine/orchestrator.py. -/
def defaultHedgingPhrases : List Str :=
  [ "don\x27t have access".data, "don\x27t have real-time".data,
    "don\x27t have current".data, "don\x27t have the ability".data,
    "don\x27t have live".data, "do not have access".data,
    "do not have real-time".data, "do not have current".data,
    "do not have the ability".data, "can\x27t browse".data,
    "can\x27t access the internet".data, "can\x27t access the web".data,
    "can\x27t search".data, "cannot browse".data,
    "cannot access the internet".data, "cannot access the web".data,
    "cannot search".data, "not able to browse".data,
    "not able to access".data, "not able to search".data,
    "unable to browse".data, "unable to access real".data,
    "unable to search".data, "my knowledge cutoff".data,
    "my training data".data, "information is outdated".data,
    "data is outdated".data, "may be outdated".data,
    "might be outdated".data, "as an ai".data,
    "as a language model".data, "as a large language model".data,
    "lack access".data, "beyond my capabilities".data,
    "outside my capabilities".data, "not available to me".data,
    "can\x27t actually browse".data, "can\x27t actually access".data,
    "can\x27t actually search".data, "cannot actually browse".data,
    "cannot actually access".data, "cannot actually search".data,
    "don\x27t actually have access".data, "still under development".data,
    "not accessible in real-time".data, "not accessible in real time".data,
    "isn\x27t accessible".data, "is not accessible".data,
    "can\x27t provide real-time".data, "cannot provide real-time".data,
    "can\x27t provide you with real-time".data, "i can\x27t answer that".data,
    "check yahoo finance".data, "check a financial".data,
    "visit a financial".data, "recommend checking".data ]

/-- `DEFAULT_TOOL_ALIASES` from engine/orchestrator.py. -/
def defaultToolAliases : List (Str × Str) :=
  [ ("gc_search".data, "web_search".data),
    ("search".data, "web_search".data),
    ("web_search".data, "web_search".data),
    ("check_calendar".data, "check_calendar".data),
    ("calendar".data, "check_calendar".data),
    ("get_calendar".data, "check_calendar".data),
    ("search_notes".data, "search_notes".data),
    ("notes".data, "search_notes".data),
    ("get_notes".data, "search_notes".data) ]

/-- `Orchestrator._reply_is_hedging`: some configured phrase is a
substring of the lowercased reply. -/
def replyIsHedging (phrases : List Str) (reply : Str) : Bool :=
  phrases.any fun p => containsSub (pyLower reply) p

/-- `OrchestratorConfig`.  Callbacks carry no data relevant to the
embedded semantics; the dispatch function itself lives in the
environment, `hasDispatch` records whether one is configured. -/
structure OrchConfig where
  provider : Str := []
  model : Str := []
  systemPrompt : Str := []
  tools : List Str := []
  hasDispatch : Bool := false
  maxIterations : Nat := 5
  maxHistory : Nat := 20
  enableHedgingSafetyNet : Bool := true
  hedgingPhrases : List Str := defaultHedgingPhrases
  toolAliases : List (Str × Str) := defaultToolAliases

-- ════════════════════════════════════════════════════════════
-- engine/orchestrator.py — the chat loop
-- ════════════════════════════════════════════════════════════

/-- The external world of one `Orchestrator.chat` call.  LLM calls and
searches are indexed by per-endpoint call counters; a raised exception is
an `Except.error` carrying its message.  `_parse_text_tool_calls` (a
regex and `json.loads` walk over model-produced text, resolved through
the alias table) is abstracted as the function `parseTextToolCalls`. -/
structure ChatEnv where
  genTools : Nat → Except Str (Str × List ToolCall)
  gen : Nat → Except Str Str
  dispatchFn : DispatchFn
  parseTextToolCalls : Str → List ToolCall
  webSearch : Nat → Except Str (Option SearchData)

/-- Mutable state of the chat loop. -/
structure LoopState where
  hist : List Msg
  tCount : Nat := 0
  gCount : Nat := 0
  dCount : Nat := 0
  sCount : Nat := 0
  searchPerformed : Bool := false
  lastText : Str := []

/-- How the `for iteration in range(max_iterations)` loop ended. -/
inductive LoopExit where
  | broke (reply : Str)
  | exhausted
  | raised (e : Str)
deriving Repr

/-- Execute the tool calls of one iteration: dispatch each via
`_dispatch` (which cannot raise) and append one tool-role message per
result. -/
def execToolCalls (cfg : OrchConfig) (env : ChatEnv) (tcs : List ToolCall)
    (st : LoopState) : LoopState :=
  tcs.foldl
    (fun st tc =>
      let result := dispatchWrap cfg.hasDispatch env.dispatchFn st.dCount
        tc.name tc.args
      { st with
        dCount := st.dCount + 1
        searchPerformed := st.searchPerformed || tc.name == "web_search".data
        hist := st.hist ++ [mkToolMsg result] })
    st

/-- The iteration loop of `Orchestrator.chat`.  `fuel` counts the
remaining iterations of `range(max_iterations)`. -/
def chatLoop (cfg : OrchConfig) (env : ChatEnv) :
    Nat → LoopState → LoopState × LoopExit
  | 0, st => (st, .exhausted)
  | fuel + 1, st =>
    match env.genTools st.tCount with
    | .error e => ({ st with tCount := st.tCount + 1 }, .raised e)
    | .ok (rawText, rawCalls) =>
      let st := { st with tCount := st.tCount + 1 }
      let text0 := stripThinking rawText
      let tc_text : List ToolCall × Str :=
        if rawCalls = [] ∧ text0 ≠ [] then
          let parsed := env.parseTextToolCalls text0
          if parsed ≠ [] then (parsed, []) else (rawCalls, text0)
        else (rawCalls, text0)
      let toolCalls := tc_text.1
      let text := tc_text.2
      let st := { st with lastText := text }
      if toolCalls = [] then (st, .broke text)
      else
        let st := { st with hist := st.hist ++ [⟨.assistant, text, toolCalls⟩] }
        let st := execToolCalls cfg env toolCalls st
        chatLoop cfg env fuel st

/-- The fixed fallback reply when the iterations are exhausted without
text. -/
def fallbackReply : Str := "I wasn\x27t able to complete that request.".data

/-- `Orchestrator._extract_search_query`: ask the model for a clean
query; keep it if longer than 5 characters, otherwise (or on exception)
fall back to the raw user text. -/
def extractSearchQuery (env : ChatEnv) (g : Nat) (userInput : Str) :
    Str × Nat :=
  match env.gen g with
  | .error _ => (userInput, g + 1)
  | .ok reply =>
    let query := pyStripWs reply
    if 5 < query.length then (query, g + 1) else (userInput, g + 1)

/-- `Orchestrator._safety_net_search`: extract a query, search, and
re-ask with the formatted results injected into an ephemeral message
list (never persisted).  Any exception or an empty search yields
`none`. -/
def safetyNetSearch (env : ChatEnv) (g s : Nat) (userInput : Str) :
    Option Str × Nat × Nat :=
  let qg := extractSearchQuery env g userInput
  match env.webSearch s with
  | .error _ => (none, qg.2, s + 1)
  | .ok none => (none, qg.2, s + 1)
  | .ok (some data) =>
    let _context := formatResultsForContext (some data)
    match env.gen qg.2 with
    | .error _ => (none, qg.2 + 1, s + 1)
    | .ok reply => (some reply, qg.2 + 1, s + 1)

/-- The directive injected by `_post_tool_hedging_retry`. -/
def retryDirective : Str :=
  ("You already searched the web and received results above. " ++
   "Use those results to answer my question directly. " ++
   "Do not say you cannot access real-time data — you just did.").data

/-- `Orchestrator._post_tool_hedging_retry`: append the directive,
regenerate, pop the directive.  When the generation raises, the `pop`
never runs, so the directive stays in history and the exception
propagates. -/
def postToolRetry (env : ChatEnv) (hist : List Msg) (g : Nat) :
    List Msg × Except Str Str × Nat :=
  let hist1 := hist ++ [mkUserMsg retryDirective]
  match env.gen g with
  | .error e => (hist1, .error e, g + 1)
  | .ok reply => (hist, .ok reply, g + 1)

/-- Everything `Orchestrator.chat` does before the final
`if reply: self.messages.append(...)`: trim-append, loop, and the two
recovery checks.  Returns the history as mutated so far and either the
candidate reply or a propagated exception. -/
def chatPreAppend (cfg : OrchConfig) (env : ChatEnv) (hist0 : List Msg)
    (userInput : Str) : List Msg × Except Str Str :=
  let hist1 := trimHistory cfg.maxHistory (hist0 ++ [mkUserMsg userInput])
  let st0 : LoopState := { hist := hist1 }
  let le := chatLoop cfg env cfg.maxIterations st0
  let st := le.1
  match le.2 with
  | .raised e => (st.hist, .error e)
  | other =>
    let reply0 := match other with
      | .broke r => r
      | _ => if st.lastText ≠ [] then st.lastText else fallbackReply
    -- post-tool hedging retry
    let step1 : List Msg × Except Str Str × Nat :=
      if st.searchPerformed ∧ replyIsHedging cfg.hedgingPhrases reply0 then
        postToolRetry env st.hist st.gCount
      else (st.hist, .ok reply0, st.gCount)
    match step1.2.1 with
    | .error e => (step1.1, .error e)
    | .ok reply1 =>
      -- safety-net search
      let reply2 :=
        if ¬st.searchPerformed ∧ cfg.enableHedgingSafetyNet ∧
            cfg.tools ≠ [] ∧ replyIsHedging cfg.hedgingPhrases reply1 then
          match (safetyNetSearch env step1.2.2 st.sCount userInput).1 with
          | some r => if r ≠ [] then r else reply1
          | none => reply1
        else reply1
      (step1.1, .ok reply2)

/-- The overall result of one `chat` call: the final history and the
returned reply (or the propagated exception). -/
structure ChatResult where
  hist : List Msg
  result : Except Str Str
deriving Repr

/-- `Orchestrator.chat`: the pre-append phase followed by
`if reply: self.messages.append(\x7b"role": "assistant", ...\x7d)`. -/
def chat (cfg : OrchConfig) (env : ChatEnv) (hist0 : List Msg)
    (userInput : Str) : ChatResult :=
  let pre := chatPreAppend cfg env hist0 userInput
  match pre.2 with
  | .error e => ⟨pre.1, .error e⟩
  | .ok reply =>
    ⟨if reply ≠ [] then pre.1 ++ [mkAssistantMsg reply] else pre.1, .ok reply⟩

-- ════════════════════════════════════════════════════════════
-- engine/workflow.py — JSON values, rendering, truncation
-- ════════════════════════════════════════════════════════════

/-- Python `str.replace` (all occurrences, left to right,
non-overlapping).  The templates only ever use nonempty patterns; an
empty pattern leaves the text unchanged here. -/
def replaceAllAux (pat rep : Str) : Nat → Str → Str
  | _, [] => []
  | 0, cs => cs
  | fuel + 1, c :: rest =>
    if pat.isPrefixOf (c :: rest) ∧ pat ≠ [] then
      rep ++ replaceAllAux pat rep fuel ((c :: rest).drop pat.length)
    else c :: replaceAllAux pat rep fuel rest

def pyReplace (cs pat rep : Str) : Str := replaceAllAux pat rep cs.length cs

/-- A parsed JSON value as `json.loads` returns it. -/
inductive PyJson where
  | str (s : Str)
  | num (n : Int)
  | boolVal (b : Bool)
  | nullVal
  | arr (elems : List PyJson)
  | obj (fields : List (Str × PyJson))

mutual

/-- Python `repr` of a parsed JSON value (string-escaping corner cases
are not modelled; none of the claims depend on them). -/
def pyRepr : PyJson → Str
  | .str s => '\x27' :: s ++ ['\x27']
  | .num n => (toString n).data
  | .boolVal true => "True".data
  | .boolVal false => "False".data
  | .nullVal => "None".data
  | .arr es => '[' :: List.intercalate ", ".data (pyReprList es) ++ [']']
  | .obj fs => Char.ofNat 123 :: List.intercalate ", ".data (pyReprFields fs) ++
      [Char.ofNat 125]

def pyReprList : List PyJson → List Str
  | [] => []
  | j :: rest => pyRepr j :: pyReprList rest

def pyReprFields : List (Str × PyJson) → List Str
  | [] => []
  | f :: rest => ('\x27' :: f.1 ++ '\x27' :: ": ".data ++ pyRepr f.2) :: pyReprFields rest

end

/-- Python `str` applied to a parsed JSON value: identity on strings,
`repr`-style on everything else. -/
def pyJsonStr : PyJson → Str
  | .str s => s
  | j => pyRepr j

/-- Lookup in a parsed JSON object (`dict.get`). -/
def pyJsonGet (fields : List (Str × PyJson)) (k : Str) : Option PyJson :=
  fields.foldl (fun acc kv => if kv.1 = k then some kv.2 else acc) none

/-- `workflow._maybe_parse_json`: strip, remove one surrounding code
fence, then `json.loads` (the stdlib parser is the oracle `loads`);
`none` plays the role of "parse failed, keep the raw text". -/
def maybeParseJson (loads : Str → Option PyJson) (text : Str) :
    Option PyJson :=
  let stripped := pyStripWs text
  let stripped2 :=
    if "```".data.isPrefixOf stripped then
      let lines := pySplitChar '\n' stripped
      if 3 ≤ lines.length ∧ pyStripWs (lines.getLastD []) = "```".data then
        pyStripWs (List.intercalate ['\n'] (lines.drop 1).dropLast)
      else stripped
    else stripped
  loads stripped2

/-- `workflow._truncate_search_for_decompose` with its default
arguments: cut indented lines longer than `maxSnippet` to
`maxSnippet` plus `"..."`, then cap the joined text at `maxTotal` plus
the marker `"\n[...truncated]"`. -/
def snippetTruncLine (maxSnippet : Nat) (line : Str) : Str :=
  if "   ".data.isPrefixOf line ∧ maxSnippet < line.length then
    line.take maxSnippet ++ "...".data
  else line

/-- The truncation itself: per-line snippet cut, join, global cap. -/
def truncateSearchForDecompose (text : Str) (maxSnippet : Nat := 150)
    (maxTotal : Nat := 2500) : Str :=
  let lines := pySplitChar '\n' text
  let out := lines.map (snippetTruncLine maxSnippet)
  let result := List.intercalate ['\n'] out
  if maxTotal < result.length then
    result.take maxTotal ++ "\n[...truncated]".data
  else result

/-- `WorkflowContext` (engine/workflow.py).  `stepResults` is a Python
dict in insertion order; values are stored already `str`-ified (the
source stores the object and `str`-ifies at render time — `str` is pure,
so the result is the same). -/
structure WorkflowContext where
  workflowId : Str := []
  userQuery : Str := []
  stepResults : List (Str × Str) := []
  searchQueries : List Str := []
  searchResults : List Str := []
  finalAnswer : Str := []
deriving Repr

/-- `dict.get(key, "")` over step results. -/
def stepResultD (ctx : WorkflowContext) (k : Str) : Str :=
  (pyDictGet ctx.stepResults k).getD []

/-- The wall clock as the workflow sees it (`date.today()`), already
formatted: `strftime("%B %d, %Y")` and `str(today.year)`. -/
structure Clock where
  currentDate : Str
  currentYear : Str

/-- The replacement table of `workflow._render_template`, in the
source's insertion order. -/
def renderReplacements (clock : Clock) (ctx : WorkflowContext) :
    List (Str × Str) :=
  let shortQ := ctx.userQuery.take 50 ++
    (if 50 < ctx.userQuery.length then "...".data else [])
  [ ("user_query".data, ctx.userQuery),
    ("user_query_short".data, shortQ),
    ("current_date".data, clock.currentDate),
    ("current_year".data, clock.currentYear),
    ("search_queries".data,
      List.intercalate ['\n'] (ctx.searchQueries.map fun q => "- ".data ++ q)),
    ("search_results".data, List.intercalate "\n\n".data ctx.searchResults),
    ("decompose_result".data, stepResultD ctx "decompose".data),
    ("claims".data, stepResultD ctx "extract_claim".data),
    ("evidence".data, stepResultD ctx "search_evidence".data),
    ("counter_evidence".data, stepResultD ctx "search_counter".data),
    ("initial_search".data, stepResultD ctx "initial_search".data),
    ("initial_lookup".data,
      truncateSearchForDecompose (stepResultD ctx "initial_lookup".data)),
    ("gap_analysis".data, stepResultD ctx "evaluate_gaps".data),
    ("targeted_results".data, stepResultD ctx "targeted_search".data) ]

/-- `workflow._render_template`: sequentially replace each
`\x7b\x7bkey\x7d\x7d` with its value. -/
def renderTemplate (clock : Clock) (template : Str) (ctx : WorkflowContext) :
    Str :=
  (renderReplacements clock ctx).foldl
    (fun acc kv =>
      pyReplace acc ("\x7b\x7b".data ++ kv.1 ++ "\x7d\x7d".data) kv.2)
    template

-- ════════════════════════════════════════════════════════════
-- engine/workflow.py — step and workflow definitions
-- ════════════════════════════════════════════════════════════

/-- `WorkflowStep` (the compiled trigger regex lives outside the
embedding). -/
structure WorkflowStep where
  id : Str
  name : Str
  stepType : Str
  promptTemplate : Str := []
  toolName : Str := []
  nextStep : Str := []
  maxRetries : Nat := 0
  narration : Str := []

/-- `WorkflowDef`. -/
structure WorkflowDef where
  id : Str
  name : Str
  description : Str
  triggerKeywords : List Str := []
  steps : List WorkflowStep := []
  minQueryWords : Nat := 6

/-- The `research_compare` template of `_build_templates`. -/
def researchCompare : WorkflowDef :=
  { id := "research_compare".data
    name := "Research & Compare".data
    description := "Establish ranking, decompose into per-entity lookups, synthesize".data
    triggerKeywords :=
      [ "compare".data, "comparison".data, "versus".data, "vs".data,
        "top \\d+".data,
        "top (three|four|five|six|seven|eight|nine|ten)".data,
        "each".data, "both".data,
        "market cap".data, "difference between".data,
        "which is better".data, "pros and cons".data,
        "biggest".data, "largest".data, "highest".data ]
    steps :=
      [ { id := "initial_lookup".data
          name := "Establishing ranking".data
          stepType := "llm".data
          promptTemplate :=
            ("Today is \x7b\x7bcurrent_date\x7d\x7d.\n" ++
             "The user asked: \x7b\x7buser_query\x7d\x7d\n\n" ++
             "Generate a web search query to find the CURRENT, AUTHORITATIVE " ++
             "ranking with company/entity names listed. The query MUST include " ++
             "the year \x7b\x7bcurrent_year\x7d\x7d so results are fresh.\n\n" ++
             "Good: \x27top 5 S&P 500 companies by market cap list \x7b\x7bcurrent_year\x7d\x7d\x27\n" ++
             "Bad:  \x27S&P 500 stocks\x27\n\n" ++
             "Return ONLY the search query string, nothing else.").data
          toolName := "web_search".data
          nextStep := "decompose".data
          narration := "Searching for current ranking...".data },
        { id := "decompose".data
          name := "Decomposing query".data
          stepType := "llm".data
          promptTemplate :=
            ("Today is \x7b\x7bcurrent_date\x7d\x7d.\n" ++
             "The user asked: \x7b\x7buser_query\x7d\x7d\n\n" ++
             "Here are current search results:\n" ++
             "---BEGIN SEARCH RESULTS---\n\x7b\x7binitial_lookup\x7d\x7d\n---END SEARCH RESULTS---\n\n" ++
             "TASK: Identify the entities the user is asking about and create " ++
             "one search query per entity to look up current data.\n\n" ++
             "RULES:\n" ++
             "- FIRST check the search results for entity names\n" ++
             "- If the search results don\x27t list specific entity names, use your " ++
             "knowledge to identify the most likely current entities and we will " ++
             "verify with search\n" ++
             "- If the user asked for \x27top N\x27, return EXACTLY N entities\n" ++
             "- Include ticker symbols when known\n" ++
             "- Include \x27\x7b\x7bcurrent_year\x7d\x7d\x27 in each query\n\n" ++
             "Return ONLY a JSON array of search queries. Example format:\n" ++
             "[\"Apple AAPL market cap \x7b\x7bcurrent_year\x7d\x7d\", " ++
             "\"NVIDIA NVDA market cap \x7b\x7bcurrent_year\x7d\x7d\", " ++
             "\"Microsoft MSFT market cap \x7b\x7bcurrent_year\x7d\x7d\"]\n\n" ++
             "JSON array:").data
          nextStep := "search_each".data
          narration := "Decomposing into individual lookups...".data },
        { id := "search_each".data
          name := "Searching each entity".data
          stepType := "loop".data
          toolName := "web_search".data
          nextStep := "synthesize".data
          narration := "Looking up each entity...".data },
        { id := "synthesize".data
          name := "Synthesizing".data
          stepType := "llm".data
          promptTemplate :=
            ("Today is \x7b\x7bcurrent_date\x7d\x7d.\n" ++
             "The user asked: \x7b\x7buser_query\x7d\x7d\n\n" ++
             "Here are per-entity search results:\n\x7b\x7bsearch_results\x7d\x7d\n\n" ++
             "RULES:\n" ++
             "- Present the entities in RANKED ORDER (largest to smallest, " ++
             "best to worst, etc. — matching the user\x27s question)\n" ++
             "- ONLY cite numbers that appear in the search results above\n" ++
             "- If your training knowledge contradicts the search results, " ++
             "TRUST THE SEARCH RESULTS — they are more recent\n" ++
             "- Include specific numbers/facts from the results\n" ++
             "- Keep it conversational — this will be spoken aloud by a voice " ++
             "assistant (2-4 sentences)").data
          narration := "Putting it all together...".data } ] }

/-- The `deep_research` template of `_build_templates`. -/
def deepResearch : WorkflowDef :=
  { id := "deep_research".data
    name := "Deep Research".data
    description := "Initial search, evaluate gaps, targeted follow-up, synthesize".data
    triggerKeywords :=
      [ "tell me about".data, "research".data, "explain in detail".data,
        "what\x27s happening with".data, "deep dive".data,
        "comprehensive".data, "thorough".data ]
    minQueryWords := 5
    steps :=
      [ { id := "initial_search".data
          name := "Initial search".data
          stepType := "llm".data
          promptTemplate :=
            ("Today is \x7b\x7bcurrent_date\x7d\x7d.\n" ++
             "The user asked: \x7b\x7buser_query\x7d\x7d\n\n" ++
             "Generate a focused web search query to find the most relevant, " ++
             "current information. Include \x27\x7b\x7bcurrent_year\x7d\x7d\x27 in the query.\n\n" ++
             "Return ONLY the search query string, nothing else.").data
          toolName := "web_search".data
          nextStep := "evaluate_gaps".data
          narration := "Searching for \x7b\x7buser_query_short\x7d\x7d...".data },
        { id := "evaluate_gaps".data
          name := "Evaluating gaps".data
          stepType := "llm".data
          promptTemplate :=
            ("Today is \x7b\x7bcurrent_date\x7d\x7d.\n" ++
             "The user asked: \x7b\x7buser_query\x7d\x7d\n\n" ++
             "Initial search results:\n\x7b\x7binitial_search\x7d\x7d\n\n" ++
             "What key information is still missing to fully answer this " ++
             "question? Generate 1-2 follow-up search queries as a JSON " ++
             "array to fill the gaps. Include \x27\x7b\x7bcurrent_year\x7d\x7d\x27 in queries.\n\n" ++
             "Return ONLY the JSON array of search query strings.").data
          nextStep := "targeted_search".data
          narration := "Evaluating what else we need...".data },
        { id := "targeted_search".data
          name := "Targeted search".data
          stepType := "loop".data
          toolName := "web_search".data
          nextStep := "synthesize".data
          narration := "Running follow-up searches...".data },
        { id := "synthesize".data
          name := "Synthesizing".data
          stepType := "llm".data
          promptTemplate :=
            ("Today is \x7b\x7bcurrent_date\x7d\x7d.\n" ++
             "The user asked: \x7b\x7buser_query\x7d\x7d\n\n" ++
             "Initial findings:\n\x7b\x7binitial_search\x7d\x7d\n\n" ++
             "Follow-up findings:\n\x7b\x7bsearch_results\x7d\x7d\n\n" ++
             "RULES:\n" ++
             "- ONLY cite facts/numbers from the search results above\n" ++
             "- If your training knowledge contradicts the search results, " ++
             "TRUST THE SEARCH RESULTS\n" ++
             "- Include specific facts, dates, and numbers\n" ++
             "- Keep it conversational for a voice assistant (3-5 sentences)").data
          narration := "Putting it all together...".data } ] }

/-- The `fact_check` template of `_build_templates`. -/
def factCheck : WorkflowDef :=
  { id := "fact_check".data
    name := "Fact Check".data
    description := "Extract claim, search evidence, search counter-evidence, verdict".data
    triggerKeywords :=
      [ "is it true".data, "fact check".data, "verify".data,
        "debunk".data, "is that correct".data, "true that".data,
        "really true".data, "actually true".data ]
    steps :=
      [ { id := "extract_claim".data
          name := "Extracting claim".data
          stepType := "llm".data
          promptTemplate :=
            ("Today is \x7b\x7bcurrent_date\x7d\x7d.\n" ++
             "The user asked: \x7b\x7buser_query\x7d\x7d\n\n" ++
             "Extract the core factual claim being questioned. " ++
             "Then generate TWO search queries:\n" ++
             "1. A query to find evidence SUPPORTING the claim (include \x27\x7b\x7bcurrent_year\x7d\x7d\x27)\n" ++
             "2. A query to find evidence AGAINST the claim (include \x27\x7b\x7bcurrent_year\x7d\x7d\x27)\n\n" ++
             "Return JSON: \x7b\"claim\": \"...\", \"support_query\": \"...\", " ++
             "\"counter_query\": \"...\"\x7d").data
          nextStep := "search_evidence".data
          narration := "Extracting the claim to check...".data },
        { id := "search_evidence".data
          name := "Searching for evidence".data
          stepType := "direct".data
          toolName := "web_search".data
          nextStep := "search_counter".data
          narration := "Searching for supporting evidence...".data },
        { id := "search_counter".data
          name := "Searching counter-evidence".data
          stepType := "direct".data
          toolName := "web_search".data
          nextStep := "verdict".data
          narration := "Searching for counter-evidence...".data },
        { id := "verdict".data
          name := "Rendering verdict".data
          stepType := "llm".data
          promptTemplate :=
            ("Today is \x7b\x7bcurrent_date\x7d\x7d.\n" ++
             "The user asked: \x7b\x7buser_query\x7d\x7d\n\n" ++
             "Claim: \x7b\x7bclaims\x7d\x7d\n\n" ++
             "Supporting evidence:\n\x7b\x7bevidence\x7d\x7d\n\n" ++
             "Counter-evidence:\n\x7b\x7bcounter_evidence\x7d\x7d\n\n" ++
             "RULES:\n" ++
             "- Base your verdict ONLY on the evidence above\n" ++
             "- Do NOT rely on training knowledge for factual claims\n" ++
             "- Render a fair verdict: true, false, partly true, or unverified\n" ++
             "- Cite specific evidence from the search results\n" ++
             "- Keep it conversational for a voice assistant (2-4 sentences)").data
          narration := "Rendering verdict...".data } ] }

/-- `WORKFLOW_TEMPLATES`, in construction order. -/
def workflowTemplates : List WorkflowDef :=
  [researchCompare, deepResearch, factCheck]

-- ════════════════════════════════════════════════════════════
-- engine/workflow.py — FSM execution
-- ════════════════════════════════════════════════════════════

/-- An emitted workflow event, as received by the callbacks wired on
`WorkflowRunner`.  Extra keyword payloads that accompany some events
(1-based step number, total, step name, a `detail` string, the activity
timeout) do not influence the embedded control flow and are omitted;
what remains is the constructor, the state id, and the status. -/
inductive WfEvent where
  | startEvt (workflowId : Str)
  | stateEvt (stateId : Str) (status : Str)
  | loopUpdate (stateId : Str) (children : List Str) (activeIndex : Int)
  | narration (text : Str)
  | activity (text : Str)
  | exitEvt (workflowId : Str)
deriving DecidableEq, Repr

/-- The external world of one workflow execution: the plain-generation
LLM (`llm_generate`, by call index), the raw configured dispatch function
(`self.config.dispatch`, by call index; the second argument is the tool
name, the third the single `query` argument every workflow step passes),
and `json.loads`. -/
structure WfEnv where
  llm : Nat → Except Str Str
  dispatch : Nat → Str → Str → Except Str Str
  jsonLoads : Str → Option PyJson
  clock : Clock

/-- Mutable state threaded through a workflow execution. -/
structure WfExecState where
  ctx : WorkflowContext
  events : List WfEvent := []
  llmCount : Nat := 0
  dispCount : Nat := 0

def emitEvt (e : WfEvent) (st : WfExecState) : WfExecState :=
  { st with events := st.events ++ [e] }

/-- Store `ctx.step_results[key] = value` (a later entry overrides an
earlier one under `pyDictGet`). -/
def storeStepResult (key value : Str) (st : WfExecState) : WfExecState :=
  { st with ctx := { st.ctx with stepResults := st.ctx.stepResults ++ [(key, value)] } }

/-- `re.sub(r"^[\d.\-*]+\s*", "", line)`: drop one leading run of list
markers and the following whitespace (the regex needs at least one
marker character to match). -/
def stripListMarker (line : Str) : Str :=
  let isMarker : Char → Bool := fun c => c.isDigit || c = '.' || c = '-' || c = '*'
  if line.takeWhile isMarker ≠ [] then
    (line.dropWhile isMarker).dropWhile Char.isWhitespace
  else line

/-- The line-based fallback used by `decompose` / `evaluate_gaps` when
the model output is not a JSON array: split into lines, keep nonblank
ones, strip list markers and whitespace, cap the count. -/
def lineFallbackQueries (text : Str) (cap : Nat) : List Str :=
  let lines := pySplitChar '\n' (pyStripWs text)
  ((lines.filter fun l => pyStripWs l ≠ []).map
    fun l => pyStripWs (stripListMarker l)).take cap

/-- `WorkflowRunner._execute_llm_step`.  Returns the updated state and
`some e` when an uncaught exception `e` must propagate (an LLM failure,
or a dispatch failure inside the `initial_search` / `initial_lookup`
post-action, which the source does not wrap in `try`). -/
def execLlmStep (cfg : OrchConfig) (env : WfEnv) (step : WorkflowStep)
    (st : WfExecState) : WfExecState × Option Str :=
  let _prompt := renderTemplate env.clock step.promptTemplate st.ctx
  let modelLabel := if cfg.model ≠ [] then cfg.model else "LLM".data
  let st := emitEvt (.activity ("Querying ".data ++ modelLabel ++ "...".data)) st
  match env.llm st.llmCount with
  | .error e => ({ st with llmCount := st.llmCount + 1 }, some e)
  | .ok raw =>
    let st := { st with llmCount := st.llmCount + 1 }
    let text := stripThinking raw
    let st := storeStepResult step.id text st
    let parsed := maybeParseJson env.jsonLoads text
    if step.id = "decompose".data then
      let st := match parsed with
        | some (.arr es) =>
          { st with ctx := { st.ctx with searchQueries := es.map pyJsonStr } }
        | _ =>
          { st with ctx :=
              { st.ctx with searchQueries := lineFallbackQueries text 5 } }
      (st, none)
    else if step.id = "evaluate_gaps".data then
      let st := match parsed with
        | some (.arr es) =>
          { st with ctx := { st.ctx with searchQueries := es.map pyJsonStr } }
        | _ =>
          { st with ctx :=
              { st.ctx with searchQueries := lineFallbackQueries text 3 } }
      (st, none)
    else if step.id = "extract_claim".data then
      let st := match parsed with
        | some (.obj fs) =>
          let claim := match pyJsonGet fs "claim".data with
            | some v => pyJsonStr v
            | none => text
          let support := match pyJsonGet fs "support_query".data with
            | some v => pyJsonStr v
            | none => []
          let counter := match pyJsonGet fs "counter_query".data with
            | some v => pyJsonStr v
            | none => []
          let st := storeStepResult "extract_claim".data claim st
          { st with ctx :=
              { st.ctx with searchQueries := [support, counter].filter (· ≠ []) } }
        | _ =>
          { st with ctx := { st.ctx with searchQueries := [st.ctx.userQuery] } }
      (st, none)
    else if step.id = "initial_search".data ∨ step.id = "initial_lookup".data then
      let searchQuery := pyStripChars ['\x27'] (pyStripChars ['"'] (pyStripWs text))
      let st := emitEvt (.activity ("Searching: ".data ++ searchQuery.take 60)) st
      if step.toolName ≠ [] ∧ cfg.hasDispatch then
        match env.dispatch st.dispCount step.toolName searchQuery with
        | .ok result =>
          (storeStepResult step.id result { st with dispCount := st.dispCount + 1 }, none)
        | .error e =>
          ({ st with dispCount := st.dispCount + 1 }, some e)
      else
        (storeStepResult step.id "(search not available)".data st, none)
    else if step.id = "synthesize".data ∨ step.id = "verdict".data then
      ({ st with ctx := { st.ctx with finalAnswer := text } }, none)
    else (st, none)

/-- One iteration of the `_execute_loop_step` query loop: the `active`
state event (whose `detail` payload is omitted), a `loop_update`, an
`activity` event, then the dispatch with its failure captured into the
accumulated results. -/
def loopIter (cfg : OrchConfig) (env : WfEnv) (step : WorkflowStep)
    (queries : List Str) (acc : WfExecState × List Str) (iq : Nat × Str) :
    WfExecState × List Str :=
  let st := acc.1
  let results := acc.2
  let i := iq.1
  let query := iq.2
  let st := emitEvt (.stateEvt step.id "active".data) st
  let st := emitEvt (.loopUpdate step.id queries (Int.ofNat i)) st
  let st := emitEvt (.activity
    ("Searching ".data ++ (Nat.toDigits 10 (i + 1)) ++ "/".data ++
     (Nat.toDigits 10 queries.length) ++ ": ".data ++ query.take 50)) st
  if cfg.hasDispatch ∧ step.toolName ≠ [] then
    match env.dispatch st.dispCount step.toolName query with
    | .ok r =>
      ({ st with dispCount := st.dispCount + 1 },
       results ++ ["[Query: ".data ++ query ++ "]\n".data ++ r])
    | .error e =>
      ({ st with dispCount := st.dispCount + 1 },
       results ++ ["[Query: ".data ++ query ++ "]\nSearch failed: ".data ++ e])
  else
    (st, results ++ ["[Query: ".data ++ query ++ "]\n(search not available)".data])

/-- `WorkflowRunner._execute_loop_step`: one dispatch per derived search
query, each preceded by an `active` state event (with a `detail`
payload), a `loop_update` and an `activity` event; dispatch failures are
captured into the results and never propagate. -/
def execLoopStep (cfg : OrchConfig) (env : WfEnv) (step : WorkflowStep)
    (st : WfExecState) : WfExecState × Option Str :=
  let queries := st.ctx.searchQueries
  if queries = [] then (st, none)
  else
    let st := emitEvt (.loopUpdate step.id queries (-1)) st
    let stFinal := (queries.enum).foldl (loopIter cfg env step queries) (st, [])
    ({ stFinal.1 with ctx := { stFinal.1.ctx with searchResults := stFinal.2 } },
     none)

/-- `WorkflowRunner._execute_direct_step`: one dispatch with the
fact-check query selection; failures are stored, never propagated. -/
def execDirectStep (cfg : OrchConfig) (env : WfEnv) (step : WorkflowStep)
    (st : WfExecState) : WfExecState × Option Str :=
  if ¬cfg.hasDispatch ∨ step.toolName = [] then
    (storeStepResult step.id "(tool not available)".data st, none)
  else
    let query :=
      if step.id = "search_evidence".data ∧ st.ctx.searchQueries ≠ [] then
        st.ctx.searchQueries.getD 0 []
      else if step.id = "search_counter".data ∧ 1 < st.ctx.searchQueries.length then
        st.ctx.searchQueries.getD 1 []
      else st.ctx.userQuery
    let st := emitEvt (.activity ("Executing ".data ++ step.toolName ++ "...".data)) st
    match env.dispatch st.dispCount step.toolName query with
    | .ok result =>
      (storeStepResult step.id result { st with dispCount := st.dispCount + 1 }, none)
    | .error e =>
      (storeStepResult step.id ("Search failed: ".data ++ e)
        { st with dispCount := st.dispCount + 1 }, none)

/-- `WorkflowRunner._execute_step`: narration first, then the
type-specific execution (unknown types fall through silently). -/
def execStep (cfg : OrchConfig) (env : WfEnv) (step : WorkflowStep)
    (st : WfExecState) : WfExecState × Option Str :=
  let st := if step.narration ≠ [] then
      emitEvt (.narration (renderTemplate env.clock step.narration st.ctx)) st
    else st
  if step.stepType = "llm".data then execLlmStep cfg env step st
  else if step.stepType = "loop".data then execLoopStep cfg env step st
  else if step.stepType = "direct".data then execDirectStep cfg env step st
  else (st, none)

/-- The step loop of `_execute_workflow`: `active` event, execute,
`visited` event; the first uncaught exception skips the `visited` event
and the remaining steps. -/
def runSteps (cfg : OrchConfig) (env : WfEnv) :
    List WorkflowStep → WfExecState → WfExecState × Option Str
  | [], st => (st, none)
  | step :: rest, st =>
    let st := emitEvt (.stateEvt step.id "active".data) st
    let se := execStep cfg env step st
    match se.2 with
    | some e => (se.1, some e)
    | none =>
      let st := emitEvt (.stateEvt step.id "visited".data) se.1
      runSteps cfg env rest st

/-- The apology reply on a workflow-step exception. -/
def workflowErrorReply (e : Str) : Str :=
  "I ran into an issue during research: ".data ++ e

/-- The reply when the terminal step produced no final answer. -/
def workflowEmptyReply : Str :=
  "I completed the research but couldn\x27t form a response.".data

/-- Result of `WorkflowRunner._execute_workflow`. -/
structure WfResult where
  hist : List Msg
  reply : Str
  events : List WfEvent
deriving Repr

/-- `WorkflowRunner._execute_workflow`: notify start, run the steps in
declaration order, compute the reply, notify exit, and append exactly the
final user / assistant pair to the orchestrator history. -/
def executeWorkflow (cfg : OrchConfig) (env : WfEnv) (wf : WorkflowDef)
    (userInput : Str) (hist : List Msg) : WfResult :=
  let ctx0 : WorkflowContext := { workflowId := wf.id, userQuery := userInput }
  let st0 : WfExecState := { ctx := ctx0, events := [.startEvt wf.id] }
  let se := runSteps cfg env wf.steps st0
  let reply := match se.2 with
    | some e => workflowErrorReply e
    | none =>
      if se.1.ctx.finalAnswer ≠ [] then se.1.ctx.finalAnswer
      else workflowEmptyReply
  let events := se.1.events ++ [.exitEvt wf.id]
  { hist := hist ++ [mkUserMsg userInput, mkAssistantMsg reply]
    reply := reply
    events := events }

/-- The state ids carried by `workflow_state` events with status
`active`, in emission order. -/
def activeIds (events : List WfEvent) : List Str :=
  events.filterMap fun e =>
    match e with
    | .stateEvt i status => if status = "active".data then some i else none
    | _ => none

/-- Collapse consecutive duplicates. -/
def collapseDups : List Str → List Str
  | [] => []
  | [a] => [a]
  | a :: b :: rest =>
    if a = b then collapseDups (b :: rest) else a :: collapseDups (b :: rest)

-- ════════════════════════════════════════════════════════════
-- Concrete instances used by witnesses and counterexamples
-- ════════════════════════════════════════════════════════════

/-- The stripped-off text component of the nth tool-generation call. -/
def genToolsTextAt (env : ChatEnv) (n : Nat) : Str :=
  match env.genTools n with
  | .ok p => p.1
  | .error _ => []

/-- A two-iteration configuration with hedging disabled (empty phrase
set) and no tools configured. -/
def c4Cfg : OrchConfig :=
  { maxIterations := 2, hedgingPhrases := [], tools := [], hasDispatch := false }

/-- A model that answers the first call with a text preface plus a tool
call and the second call with a tool call only. -/
def c4Env : ChatEnv :=
  { genTools := fun n =>
      .ok (if n = 0 then "partial answer".data else [], [⟨[], "x".data, []⟩])
    gen := fun _ => .ok []
    dispatchFn := fun _ _ _ => .ok []
    parseTextToolCalls := fun _ => []
    webSearch := fun _ => .ok none }

/-- A dispatch-enabled configuration for workflow runs. -/
def wfCfg : OrchConfig := { hasDispatch := true }

/-- A workflow environment whose model decomposes into a single search
query; `jsonLoads` agrees with `json.loads` on the strings it is asked
to parse. -/
def wfEnv : WfEnv :=
  { llm := fun n =>
      .ok (if n = 0 then "top query".data
        else if n = 1 then "[\"q1\"]".data else "answer".data)
    dispatch := fun _ _ _ => .ok "1. A (u)\n   s".data
    jsonLoads := fun s =>
      if s = "[\"q1\"]".data then some (.arr [.str "q1".data]) else none
    clock := ⟨"March 01, 2026".data, "2026".data⟩ }

-- ════════════════════════════════════════════════════════════
-- Theorems
-- ════════════════════════════════════════════════════════════

/-- C7: the input-quality classifier's numeric thresholds are strict.
For text that triggers no other garbage rule, an audio duration of
exactly 0.6 s is not classified garbage while 0.59 s is, and a
no-speech probability of exactly 0.60 is not classified garbage while
0.61 is. -/
theorem C7_classifier_thresholds (text : Str) (nsp lp d : ℚ)
    (hne : pyStripWs text ≠ [])
    (hhall : hallucinationMatch (pyStripWs text) = false)
    (hsingle : singleWordGarbage (classifyWords (pyStripWs text)) = false)
    (htwo : twoWordGarbage (classifyWords (pyStripWs text)) = false)
    (hnsp : nsp ≤ 6/10)
    (hdur : ¬(0 < d ∧ d < 6/10)) :
    classify text nsp lp (6/10) ≠ .garbage ∧
    classify text nsp lp (59/100) = .garbage ∧
    classify text (6/10) lp d ≠ .garbage ∧
    classify text (61/100) lp d = .garbage := by
  unfold classify
  simp only [hne, if_false, hhall, Bool.false_eq_true, hsingle, htwo]
  refine ⟨?_, ?_, ?_, ?_⟩
  · rw [if_neg (by norm_num : ¬((0:ℚ) < 6/10 ∧ (6:ℚ)/10 < 6/10)),
      if_neg (not_lt.mpr hnsp)]
    split_ifs <;> simp
  · rw [if_pos (by norm_num : (0:ℚ) < 59/100 ∧ (59:ℚ)/100 < 6/10)]
  · rw [if_neg hdur, if_neg (by norm_num : ¬((6:ℚ)/10 > 6/10))]
    split_ifs <;> simp
  · rw [if_neg hdur, if_pos (by norm_num : (61:ℚ)/100 > 6/10)]

/-- Witness for C7 at a concrete transcription. -/
theorem C7_classifier_thresholds_witness :
    classify "what is the weather like today".data 0 0 (6/10) ≠ .garbage ∧
    classify "what is the weather like today".data 0 0 (59/100) = .garbage ∧
    classify "what is the weather like today".data (6/10) 0 1 ≠ .garbage ∧
    classify "what is the weather like today".data (61/100) 0 1 = .garbage := by
  have h1 := C7_classifier_thresholds "what is the weather like today".data 0 0 1
    (by decide) (by decide) (by decide) (by decide)
    (by norm_num) (by norm_num)
  exact ⟨h1.1, h1.2.1, h1.2.2.1, h1.2.2.2⟩

/-- C5: the orchestrator's dispatch wrapper is a total function into
strings — it never propagates an exception.  With no dispatch function
configured it returns the string-encoded missing-tool error; when the
handler raises it returns a string carrying the exception kind and
message; otherwise it returns the handler's string. -/
theorem C5_dispatch_never_raises (hasD : Bool) (fn : DispatchFn) (n : Nat)
    (name : Str) (args : List (Str × Str)) :
    (hasD = false → dispatchWrap hasD fn n name args =
      "Error: no dispatch function configured for tool \x27".data ++ name ++
        "\x27".data) ∧
    (∀ e, hasD = true → fn n name args = .error e →
      dispatchWrap hasD fn n name args =
        "Error executing \x27".data ++ name ++ "\x27: ".data ++ e.kind ++
          ": ".data ++ e.msg) ∧
    (∀ s, hasD = true → fn n name args = .ok s →
      dispatchWrap hasD fn n name args = s) := by
  refine ⟨?_, ?_, ?_⟩
  · intro h
    subst h
    simp [dispatchWrap, dispatchMissing]
  · intro e h hf
    subst h
    simp [dispatchWrap, hf, dispatchErrorStr]
  · intro s h hf
    subst h
    simp [dispatchWrap, hf]

/-- Witness for C5: a missing dispatcher and a raising handler, both
producing the exact error strings. -/
theorem C5_dispatch_never_raises_witness :
    dispatchWrap false (fun _ _ _ => .ok []) 0 "web_search".data [] =
      "Error: no dispatch function configured for tool \x27web_search\x27".data ∧
    dispatchWrap true (fun _ _ _ => .error ⟨"ValueError".data, "boom".data⟩) 0
        "web_search".data [] =
      "Error executing \x27web_search\x27: ValueError: boom".data := by
  constructor
  · rw [(C5_dispatch_never_raises false (fun _ _ _ => .ok []) 0
      "web_search".data []).1 rfl]
    decide
  · rw [(C5_dispatch_never_raises true
      (fun _ _ _ => .error ⟨"ValueError".data, "boom".data⟩) 0
      "web_search".data []).2.1 ⟨"ValueError".data, "boom".data⟩ rfl rfl]
    decide

/-- Elements of the pieces produced by `splitOnP` never satisfy the
splitting predicate. -/
theorem mem_splitOnP_not_pred {α : Type} (p : α → Bool) :
    ∀ (xs : List α) l, l ∈ xs.splitOnP p → ∀ a ∈ l, ¬ p a := by
  intro xs
  induction xs with
  | nil =>
    intro l hl a ha
    rw [List.splitOnP_nil] at hl
    simp at hl
    subst hl
    simp at ha
  | cons x xs ih =>
    intro l hl a ha
    rw [List.splitOnP_cons] at hl
    by_cases hx : p x
    · rw [if_pos hx] at hl
      rcases List.mem_cons.mp hl with h | h
      · subst h; simp at ha
      · exact ih l h a ha
    · rw [if_neg hx] at hl
      cases hsp : xs.splitOnP p with
      | nil => exact absurd hsp (List.splitOnP_ne_nil p xs)
      | cons hd tl =>
        rw [hsp] at hl
        simp only [List.modifyHead] at hl
        rcases List.mem_cons.mp hl with h | h
        · subst h
          rcases List.mem_cons.mp ha with h | h
          · subst h; exact hx
          · exact ih hd (hsp ▸ List.mem_cons_self hd tl) a h
        · exact ih l (hsp ▸ List.mem_cons_of_mem hd h) a ha

/-- C8 counterexample: for a 2600-character single-line value the
substituted block has 2,515 characters — the 2,500-character cap is
followed by a 15-character truncation marker, so the block is **not**
capped at 2,500 characters. -/
theorem C8_cap_counterexample :
    (truncateSearchForDecompose (List.replicate 2600 'a')).length = 2515 ∧
    2500 < (truncateSearchForDecompose (List.replicate 2600 'a')).length := by
  have hsplit : pySplitChar '\n' (List.replicate 2600 'a') =
      [List.replicate 2600 'a'] := by
    unfold pySplitChar List.splitOn
    exact List.splitOnP_eq_single _ _ (by
      intro x hx
      rw [List.eq_of_mem_replicate hx]
      decide)
  have hnp : ∀ l : Str, ¬ ("   ".data.isPrefixOf ('a' :: l) = true) := by
    intro l h
    rcases List.isPrefixOf_iff_prefix.mp h with ⟨t, ht⟩
    rw [show "   ".data = ' ' :: "  ".data from rfl, List.cons_append] at ht
    injection ht with h1 _
    exact absurd h1 (by decide)
  have hline : snippetTruncLine 150 (List.replicate 2600 'a') =
      List.replicate 2600 'a' := by
    unfold snippetTruncLine
    rw [if_neg]
    rintro ⟨hpre, -⟩
    rw [show (2600 : Nat) = 2599 + 1 from rfl, List.replicate_succ] at hpre
    exact hnp _ hpre
  have hinter : ∀ l : Str, List.intercalate ['\n'] [l] = l := by
    intro l
    simp [List.intercalate]
  have hres : truncateSearchForDecompose (List.replicate 2600 'a') =
      (List.replicate 2600 'a').take 2500 ++ "\n[...truncated]".data := by
    unfold truncateSearchForDecompose
    rw [hsplit]
    simp only [List.map_cons, List.map_nil, hline, hinter]
    rw [if_pos (by rw [List.length_replicate]; omega)]
  have hm : "\n[...truncated]".data.length = 15 := rfl
  rw [hres, List.length_append, List.length_take, List.length_replicate, hm]
  omega

/-- C8 as amended: the value substituted for the `initial_lookup`
placeholder is the stored result text with every indented line longer
than 150 characters cut to its first 150 characters plus `"..."`; the
joined block, when longer than 2,500 characters, is cut to 2,500
characters and a 15-character truncation marker is appended, so the
substituted block never exceeds 2,515 characters (not 2,500). -/
theorem C8_initial_lookup_truncation (clock : Clock) (ctx : WorkflowContext)
    (text : Str) :
    (pyDictGet (renderReplacements clock ctx) "initial_lookup".data =
      some (truncateSearchForDecompose
        (stepResultD ctx "initial_lookup".data))) ∧
    (truncateSearchForDecompose text).length ≤ 2515 ∧
    (∀ line ∈ pySplitChar '\n' text,
      "   ".data.isPrefixOf line → 150 < line.length →
        snippetTruncLine 150 line = line.take 150 ++ "...".data) ∧
    (¬ 2500 <
        (List.intercalate ['\n']
          ((pySplitChar '\n' text).map (snippetTruncLine 150))).length →
      pySplitChar '\n' (truncateSearchForDecompose text) =
        (pySplitChar '\n' text).map (snippetTruncLine 150)) := by
  refine ⟨rfl, ?_, ?_, ?_⟩
  · simp only [truncateSearchForDecompose]
    split_ifs with h
    · rw [List.length_append, List.length_take]
      simp only [List.length_cons, List.length_nil]
      omega
    · omega
  · intro line _ hpre hlen
    unfold snippetTruncLine
    rw [if_pos ⟨hpre, hlen⟩]
  · intro hcap
    unfold truncateSearchForDecompose
    rw [if_neg hcap]
    have hnn : (pySplitChar '\n' text).map (snippetTruncLine 150) ≠ [] := by
      intro h
      exact List.splitOnP_ne_nil _ text (List.map_eq_nil_iff.mp h)
    refine List.splitOn_intercalate _ '\n' ?_ hnn
    intro l hl hmem
    rcases List.mem_map.mp hl with ⟨src, hsrc, hmap⟩
    have hsrcn : ('\n' : Char) ∉ src := fun hc =>
      mem_splitOnP_not_pred _ text src hsrc '\n' hc (by simp)
    subst hmap
    unfold snippetTruncLine at hmem
    split_ifs at hmem with hcond
    · rcases List.mem_append.mp hmem with h | h
      · exact hsrcn (List.mem_of_mem_take h)
      · revert h; decide
    · exact hsrcn hmem

/-- A provider helper succeeds exactly when its formatted result list is
nonempty. -/
theorem searchTavily_isSome (resp : ProviderResp) (q : Str) :
    (searchTavily resp q).isSome ↔ formattedRowsOf resp ≠ [] := by
  cases resp with
  | error e => simp [searchTavily, formattedRowsOf]
  | ok raw =>
    simp only [searchTavily, formattedRowsOf]
    split_ifs with h <;> simp [h]

theorem searchBrave_isSome (resp : ProviderResp) (q : Str) :
    (searchBrave resp q).isSome ↔ formattedRowsOf resp ≠ [] := by
  cases resp with
  | error e => simp [searchBrave, formattedRowsOf]
  | ok raw =>
    simp only [searchBrave, formattedRowsOf]
    split_ifs with h <;> simp [h]

theorem searchDuckduckgo_isSome (resp : ProviderResp) (q : Str) :
    (searchDuckduckgo resp q).isSome ↔ formattedRowsOf resp ≠ [] := by
  cases resp with
  | error e => simp [searchDuckduckgo, formattedRowsOf]
  | ok raw =>
    simp only [searchDuckduckgo, formattedRowsOf]
    split_ifs with h <;> simp [h]

/-- A successful provider result always carries at least one formatted
row. -/
theorem searchTavily_some_rows (resp : ProviderResp) (q : Str)
    (d : SearchData) (h : searchTavily resp q = some d) : d.results ≠ [] := by
  cases resp with
  | error e => simp [searchTavily] at h
  | ok raw =>
    simp only [searchTavily] at h
    split_ifs at h with hr
    cases h; exact hr

theorem searchBrave_some_rows (resp : ProviderResp) (q : Str)
    (d : SearchData) (h : searchBrave resp q = some d) : d.results ≠ [] := by
  cases resp with
  | error e => simp [searchBrave] at h
  | ok raw =>
    simp only [searchBrave] at h
    split_ifs at h with hr
    cases h; exact hr

theorem searchDuckduckgo_some_rows (resp : ProviderResp) (q : Str)
    (d : SearchData) (h : searchDuckduckgo resp q = some d) :
    d.results ≠ [] := by
  simp only [searchDuckduckgo] at h
  split_ifs at h with hr
  cases h; exact hr

/-- C6 counterexample: with both API keys configured and every provider
failing, the chain attempts exactly the three providers Tavily, Brave,
DuckDuckGo — there is no fourth provider in engine/search.py. -/
theorem C6_three_providers_counterexample :
    (searchChain ⟨"k1".data, "k2".data⟩ ⟨.error (), .error (), .ok []⟩
        "q".data).attempts =
      ["tavily".data, "brave".data, "duckduckgo".data] ∧
    (searchChain ⟨"k1".data, "k2".data⟩ ⟨.error (), .error (), .ok []⟩
        "q".data).attempts.length = 3 ∧
    (searchChain ⟨"k1".data, "k2".data⟩ ⟨.error (), .error (), .ok []⟩
        "q".data).result = none := by
  refine ⟨rfl, rfl, rfl⟩

/-- C6 as amended: the engine search operation tries an ordered chain of
**three** providers Tavily → Brave → DuckDuckGo, where the third is a
free fallback that needs no key; a later provider is attempted exactly
when every earlier attempted provider failed (keyless providers are
skipped, not attempted), and a provider's attempt counts as a success
if and only if it returns at least one formatted result row. -/
theorem C6_search_fallback_chain (keys : SearchKeys) (env : SearchEnv)
    (q : Str) :
    (searchChain keys env q).attempts.Sublist
      ["tavily".data, "brave".data, "duckduckgo".data] ∧
    ("tavily".data ∈ (searchChain keys env q).attempts ↔
      keys.tavilyKey ≠ []) ∧
    ("brave".data ∈ (searchChain keys env q).attempts ↔
      keys.braveKey ≠ [] ∧
      ¬(keys.tavilyKey ≠ [] ∧ (searchTavily env.tavily q).isSome)) ∧
    ("duckduckgo".data ∈ (searchChain keys env q).attempts ↔
      ¬(keys.tavilyKey ≠ [] ∧ (searchTavily env.tavily q).isSome) ∧
      ¬(keys.braveKey ≠ [] ∧ (searchBrave env.brave q).isSome)) ∧
    ((searchTavily env.tavily q).isSome ↔ formattedRowsOf env.tavily ≠ []) ∧
    ((searchBrave env.brave q).isSome ↔ formattedRowsOf env.brave ≠ []) ∧
    ((searchDuckduckgo env.ddg q).isSome ↔ formattedRowsOf env.ddg ≠ []) ∧
    (∀ d, (searchChain keys env q).result = some d → d.results ≠ []) := by
  refine ⟨?_, ?_, ?_, ?_, searchTavily_isSome _ _, searchBrave_isSome _ _,
    searchDuckduckgo_isSome _ _, ?_⟩ <;>
  · unfold searchChain
    by_cases ht : keys.tavilyKey = [] <;> by_cases hb : keys.braveKey = [] <;>
      cases hto : searchTavily env.tavily q <;>
        cases hbo : searchBrave env.brave q <;>
          simp [ht, hb, hto, hbo] <;>
            first
            | decide
            | exact searchTavily_some_rows _ _ _ hto
            | exact searchBrave_some_rows _ _ _ hbo
            | (intro d hd
               first
               | exact searchTavily_some_rows _ _ _ hto
               | exact searchBrave_some_rows _ _ _ hbo
               | exact searchDuckduckgo_some_rows _ _ _ hd)

/-- Witness for C6: Tavily configured but failing, Brave configured and
returning one row — Brave is attempted and DuckDuckGo is not. -/
theorem C6_search_fallback_chain_witness :
    "brave".data ∈ (searchChain ⟨"k".data, "k2".data⟩
      ⟨.error (), .ok [⟨"T".data, "u".data, "s".data⟩], .ok []⟩
      "q".data).attempts ∧
    "duckduckgo".data ∉ (searchChain ⟨"k".data, "k2".data⟩
      ⟨.error (), .ok [⟨"T".data, "u".data, "s".data⟩], .ok []⟩
      "q".data).attempts := by
  have h := C6_search_fallback_chain ⟨"k".data, "k2".data⟩
    ⟨.error (), .ok [⟨"T".data, "u".data, "s".data⟩], .ok []⟩ "q".data
  constructor
  · exact h.2.2.1.mpr (by decide)
  · exact fun hm => (by decide :
      ¬(¬(("k".data : Str) ≠ [] ∧
          (searchTavily (.error ()) "q".data).isSome) ∧
        ¬(("k2".data : Str) ≠ [] ∧
          (searchBrave (.ok [⟨"T".data, "u".data, "s".data⟩]) "q".data).isSome)))
      (h.2.2.2.1.mp hm)

/-- Witness for C8: the conditional parts of the amended statement at a
concrete short value (line correspondence below the cap). -/
theorem C8_initial_lookup_truncation_witness :
    pyDictGet (renderReplacements ⟨"March 01, 2026".data, "2026".data⟩
        { userQuery := "q".data }) "initial_lookup".data =
      some (truncateSearchForDecompose
        (stepResultD { userQuery := "q".data } "initial_lookup".data)) ∧
    (truncateSearchForDecompose "abc\n   xy".data).length ≤ 2515 ∧
    pySplitChar '\n' (truncateSearchForDecompose "abc\n   xy".data) =
      (pySplitChar '\n' "abc\n   xy".data).map (snippetTruncLine 150) := by
  refine ⟨(C8_initial_lookup_truncation ⟨"March 01, 2026".data, "2026".data⟩
      { userQuery := "q".data } "abc\n   xy".data).1,
    (C8_initial_lookup_truncation ⟨"March 01, 2026".data, "2026".data⟩
      { userQuery := "q".data } "abc\n   xy".data).2.1,
    (C8_initial_lookup_truncation ⟨"March 01, 2026".data, "2026".data⟩
      { userQuery := "q".data } "abc\n   xy".data).2.2.2 (by decide)⟩

/-- C10: when the time-query fast path captures a location that resolves
to no timezone — neither as the full cleaned location nor as its first
comma-separated part — the fast path returns `None` and the query falls
through to the LLM. -/
theorem C10_unresolvable_location_falls_through (zones : List Str)
    (raw : Str)
    (hne : cleanLocation raw ≠ [])
    (h1 : resolveTimezone zones (cleanLocation raw) = none)
    (h2 : resolveTimezone zones
      (pyStripWs ((pySplitChar ',' (cleanLocation raw)).getD 0 [])) = none) :
    timeBranch zones (some raw) = none := by
  have hraw : raw ≠ [] := by
    intro h
    subst h
    exact hne (by decide)
  simp only [timeBranch]
  rw [if_pos hraw]
  rw [if_pos hraw]
  rw [if_pos hne]
  simp only [h1, h2]

/-- Witness for C10: "Atlantis" is in no lookup table, so the time
branch answers nothing. -/
theorem C10_unresolvable_location_falls_through_witness :
    cleanLocation "Atlantis".data ≠ [] ∧
    timeBranch ["America/Chicago".data] (some "Atlantis".data) = none := by
  refine ⟨by decide, ?_⟩
  exact C10_unresolvable_location_falls_through ["America/Chicago".data]
    "Atlantis".data (by decide) (by decide) (by decide)

/-- C9: an empty chat reply is never recorded — the final assistant
message is appended exactly when the reply is nonempty, so every
assistant message `chat` appends as a final reply has nonempty
content. -/
theorem C9_no_empty_assistant_reply (cfg : OrchConfig) (env : ChatEnv)
    (hist0 : List Msg) (input : Str) :
    ((chat cfg env hist0 input).result = .ok [] →
      (chat cfg env hist0 input).hist = (chatPreAppend cfg env hist0 input).1) ∧
    (∀ r, (chat cfg env hist0 input).result = .ok r → r ≠ [] →
      (chat cfg env hist0 input).hist =
        (chatPreAppend cfg env hist0 input).1 ++ [mkAssistantMsg r]) := by
  constructor
  · intro h
    unfold chat at h ⊢
    cases hpre : (chatPreAppend cfg env hist0 input).2 with
    | error e =>
      simp only [hpre] at h
      exact Except.noConfusion h
    | ok reply =>
      simp only [hpre, Except.ok.injEq] at h
      simp only [hpre, h]
      simp
  · intro r h hr
    unfold chat at h ⊢
    cases hpre : (chatPreAppend cfg env hist0 input).2 with
    | error e =>
      simp only [hpre] at h
      exact Except.noConfusion h
    | ok reply =>
      simp only [hpre, Except.ok.injEq] at h
      subst h
      simp only [hpre]
      simp [hr]

/-- Witness for C9: a model turn that yields an empty reply leaves the
history without a final assistant message. -/
theorem C9_no_empty_assistant_reply_witness :
    (chat {} ⟨fun _ => .ok ([], []), fun _ => .ok [], fun _ _ _ => .ok [],
        fun _ => [], fun _ => .ok none⟩ [] "hi".data).result = .ok [] ∧
    (chat {} ⟨fun _ => .ok ([], []), fun _ => .ok [], fun _ _ _ => .ok [],
        fun _ => [], fun _ => .ok none⟩ [] "hi".data).hist =
      (chatPreAppend {} ⟨fun _ => .ok ([], []), fun _ => .ok [],
        fun _ _ _ => .ok [], fun _ => [], fun _ => .ok none⟩ [] "hi".data).1 := by
  refine ⟨rfl, ?_⟩
  exact (C9_no_empty_assistant_reply {} ⟨fun _ => .ok ([], []), fun _ => .ok [],
    fun _ _ _ => .ok [], fun _ => [], fun _ => .ok none⟩ [] "hi".data).1 rfl

/-- The advance loop only moves the cut forward. -/
theorem advanceCutAux_ge (msgs : List Msg) :
    ∀ fuel cut, cut ≤ advanceCutAux msgs fuel cut := by
  intro fuel
  induction fuel with
  | zero => intro cut; simp [advanceCutAux]
  | succ fuel ih =>
    intro cut
    simp only [advanceCutAux]
    split_ifs with h
    · exact le_trans (Nat.le_succ cut) (ih (cut + 1))
    · exact le_rfl

/-- The advance loop never moves the cut past the end. -/
theorem advanceCutAux_le (msgs : List Msg) :
    ∀ fuel cut, cut ≤ msgs.length → advanceCutAux msgs fuel cut ≤ msgs.length := by
  intro fuel
  induction fuel with
  | zero => intro cut h; simpa [advanceCutAux] using h
  | succ fuel ih =>
    intro cut h
    simp only [advanceCutAux]
    split_ifs with hc
    · exact ih (cut + 1) hc.1
    · exact h

/-- With enough fuel, the advance loop stops only past the end or on a
non-tool message. -/
theorem advanceCutAux_post (msgs : List Msg) :
    ∀ fuel cut, msgs.length ≤ cut + fuel →
      ¬(advanceCutAux msgs fuel cut < msgs.length ∧
        (msgGetD msgs (advanceCutAux msgs fuel cut)).role = .tool) := by
  intro fuel
  induction fuel with
  | zero =>
    intro cut h
    simp only [advanceCutAux]
    rintro ⟨h1, -⟩
    omega
  | succ fuel ih =>
    intro cut h
    simp only [advanceCutAux]
    split_ifs with hc
    · exact ih (cut + 1) (by omega)
    · exact hc

/-- C1: after `_trim_history` runs, on any history satisfying the
data-model tool-group invariant (every assistant message with tool calls
is immediately followed by a tool-role message) and not starting with a
tool-role message, the kept history has length at most `max_history`,
does not start with a tool-role message, is a suffix of the input
obtained by dropping a prefix, and the cut does not split a tool
group. -/
theorem C1_trim_history_invariants (limit : Nat) (msgs : List Msg)
    (hgrp : toolGroupClosed msgs)
    (hhead : ∀ m ∈ msgs.head?, m.role ≠ .tool) :
    (trimHistory limit msgs).length ≤ limit ∧
    (∀ m ∈ (trimHistory limit msgs).head?, m.role ≠ .tool) ∧
    trimHistory limit msgs = msgs.drop (trimCut limit msgs) ∧
    ¬ cutSplitsGroup msgs (trimCut limit msgs) := by
  by_cases hlim : msgs.length ≤ limit
  · have hcut : trimCut limit msgs = 0 := by
      unfold trimCut; rw [if_pos hlim]
    refine ⟨?_, ?_, rfl, ?_⟩
    · simpa [trimHistory, hcut] using hlim
    · simpa [trimHistory, hcut] using hhead
    · rw [hcut]
      rintro ⟨i, hi, -⟩
      omega
  · have h0le : msgs.length - limit ≤ msgs.length := Nat.sub_le _ _
    have hge : msgs.length - limit ≤ advanceCut msgs (msgs.length - limit) :=
      advanceCutAux_ge msgs _ _
    have hle : advanceCut msgs (msgs.length - limit) ≤ msgs.length :=
      advanceCutAux_le msgs _ _ h0le
    have hpost : ¬(advanceCut msgs (msgs.length - limit) < msgs.length ∧
        (msgGetD msgs (advanceCut msgs (msgs.length - limit))).role = .tool) :=
      advanceCutAux_post msgs _ _ (by omega)
    have hnorewind : ¬(0 < advanceCut msgs (msgs.length - limit) ∧
        (msgGetD msgs (advanceCut msgs (msgs.length - limit) - 1)).toolCalls ≠ []) := by
      rintro ⟨hpos, htc⟩
      have hg := hgrp (advanceCut msgs (msgs.length - limit) - 1) (by omega) htc
      rw [Nat.sub_add_cancel hpos] at hg
      exact hpost hg
    have hcut : trimCut limit msgs = advanceCut msgs (msgs.length - limit) := by
      unfold trimCut
      rw [if_neg hlim, if_neg hnorewind]
    refine ⟨?_, ?_, rfl, ?_⟩
    · rw [trimHistory, hcut, List.length_drop]
      omega
    · rw [trimHistory, hcut]
      intro m hm
      rw [List.head?_drop] at hm
      have hlt : advanceCut msgs (msgs.length - limit) < msgs.length := by
        by_contra hge2
        rw [List.getElem?_eq_none (by omega)] at hm
        exact Option.noConfusion hm
      have hmd : msgGetD msgs (advanceCut msgs (msgs.length - limit)) = m := by
        unfold msgGetD
        rw [List.getD_eq_getElem?_getD, hm]
        rfl
      intro hrole
      exact hpost ⟨hlt, by rw [hmd]; exact hrole⟩
    · rw [hcut]
      rintro ⟨i, hi, htc, hlt, hrole, -⟩
      exact hpost ⟨hlt, hrole⟩

/-- Witness for C1: a history whose tail would cut into a tool group; the
trim drops the whole group. -/
theorem C1_trim_history_invariants_witness :
    toolGroupClosed
      [mkUserMsg "a".data, ⟨.assistant, [], [⟨[], "web_search".data, []⟩]⟩,
        mkToolMsg "r".data, mkUserMsg "b".data] ∧
    trimHistory 2
      [mkUserMsg "a".data, ⟨.assistant, [], [⟨[], "web_search".data, []⟩]⟩,
        mkToolMsg "r".data, mkUserMsg "b".data] = [mkUserMsg "b".data] ∧
    (trimHistory 2
      [mkUserMsg "a".data, ⟨.assistant, [], [⟨[], "web_search".data, []⟩]⟩,
        mkToolMsg "r".data, mkUserMsg "b".data]).length ≤ 2 ∧
    ¬ cutSplitsGroup
      [mkUserMsg "a".data, ⟨.assistant, [], [⟨[], "web_search".data, []⟩]⟩,
        mkToolMsg "r".data, mkUserMsg "b".data]
      (trimCut 2
        [mkUserMsg "a".data, ⟨.assistant, [], [⟨[], "web_search".data, []⟩]⟩,
          mkToolMsg "r".data, mkUserMsg "b".data]) := by
  have h := C1_trim_history_invariants 2
    [mkUserMsg "a".data, ⟨.assistant, [], [⟨[], "web_search".data, []⟩]⟩,
      mkToolMsg "r".data, mkUserMsg "b".data]
    (by decide) (by decide)
  exact ⟨by decide, by decide, h.1, h.2.2.2⟩

/-- Dispatching tool calls changes only the dispatch counter, the search
flag, and the history. -/
theorem execToolCalls_preserves (cfg : OrchConfig) (env : ChatEnv) :
    ∀ (tcs : List ToolCall) (st : LoopState),
      (execToolCalls cfg env tcs st).tCount = st.tCount ∧
      (execToolCalls cfg env tcs st).lastText = st.lastText := by
  intro tcs
  induction tcs with
  | nil => intro st; exact ⟨rfl, rfl⟩
  | cons tc rest ih =>
    intro st
    simp only [execToolCalls, List.foldl_cons] at *
    exact ih _

/-- When every iteration's generation returns a nonempty structured
tool-call list, the chat loop exhausts its iterations without breaking,
and the `text` variable it leaves behind is the stripped text of the
final iteration's generation. -/
theorem chatLoop_all_calls (cfg : OrchConfig) (env : ChatEnv) :
    ∀ (fuel : Nat) (st : LoopState),
      (∀ i, i < fuel →
        ∃ t tcs, env.genTools (st.tCount + i) = .ok (t, tcs) ∧ tcs ≠ []) →
      (chatLoop cfg env fuel st).2 = .exhausted ∧
      (chatLoop cfg env fuel st).1.lastText =
        (if fuel = 0 then st.lastText
         else stripThinking (genToolsTextAt env (st.tCount + fuel - 1))) := by
  intro fuel
  induction fuel with
  | zero => intro st _; simp [chatLoop]
  | succ fuel ih =>
    intro st h
    obtain ⟨t, tcs, hgen, htcs⟩ := h 0 (Nat.succ_pos fuel)
    rw [Nat.add_zero] at hgen
    simp only [chatLoop, hgen]
    rw [if_neg (show ¬(tcs = [] ∧ stripThinking t ≠ []) from fun hc => htcs hc.1)]
    dsimp only
    rw [if_neg htcs]
    have hprem : ∀ i, i < fuel →
        ∃ t2 tcs2, env.genTools
          ((execToolCalls cfg env tcs
            { st with
              tCount := st.tCount + 1
              lastText := stripThinking t
              hist := st.hist ++ [⟨.assistant, stripThinking t, tcs⟩] }).tCount + i) =
          .ok (t2, tcs2) ∧ tcs2 ≠ [] := by
      intro i hi
      obtain ⟨t2, tcs2, hg2, ht2⟩ := h (i + 1) (by omega)
      refine ⟨t2, tcs2, ?_, ht2⟩
      rw [(execToolCalls_preserves cfg env tcs _).1]
      show env.genTools (st.tCount + 1 + i) = _
      rw [show st.tCount + 1 + i = st.tCount + (i + 1) from by omega]
      exact hg2
    obtain ⟨hex, hlast⟩ := ih (execToolCalls cfg env tcs
      { st with
        tCount := st.tCount + 1
        lastText := stripThinking t
        hist := st.hist ++ [⟨.assistant, stripThinking t, tcs⟩] }) hprem
    refine ⟨hex, hlast.trans ?_⟩
    rw [if_neg (Nat.succ_ne_zero fuel)]
    by_cases hf : fuel = 0
    · subst hf
      simp only [if_pos rfl]
      rw [(execToolCalls_preserves cfg env tcs _).2]
      show stripThinking t = _
      simp [genToolsTextAt, hgen]
    · rw [if_neg hf]
      rw [(execToolCalls_preserves cfg env tcs _).1]
      show stripThinking (genToolsTextAt env (st.tCount + 1 + fuel - 1)) = _
      congr 2
      omega

/-- C4 as amended: when every loop iteration returns tool calls (so the
loop exhausts `max_iterations` without breaking) and the resulting
candidate reply is not hedging, `chat` returns the stripped text of the
**final** iteration if it is nonempty, and otherwise the fixed fallback
string — not the last nonempty text produced anywhere in the loop. -/
theorem C4_exhausted_reply (cfg : OrchConfig) (env : ChatEnv)
    (hist0 : List Msg) (input : Str)
    (hpos : 0 < cfg.maxIterations)
    (hcalls : ∀ i, i < cfg.maxIterations →
      ∃ t tcs, env.genTools i = .ok (t, tcs) ∧ tcs ≠ [])
    (hnh : replyIsHedging cfg.hedgingPhrases
      (if stripThinking (genToolsTextAt env (cfg.maxIterations - 1)) ≠ []
       then stripThinking (genToolsTextAt env (cfg.maxIterations - 1))
       else fallbackReply) = false) :
    (chat cfg env hist0 input).result = .ok
      (if stripThinking (genToolsTextAt env (cfg.maxIterations - 1)) ≠ []
       then stripThinking (genToolsTextAt env (cfg.maxIterations - 1))
       else fallbackReply) := by
  obtain ⟨hex, hlast⟩ := chatLoop_all_calls cfg env cfg.maxIterations
    { hist := trimHistory cfg.maxHistory (hist0 ++ [mkUserMsg input]) }
    (by simpa using hcalls)
  rw [if_neg (by omega)] at hlast
  simp only [Nat.zero_add] at hlast
  unfold chat chatPreAppend
  simp only [hex, hlast]
  by_cases hstrip : stripThinking (genToolsTextAt env (cfg.maxIterations - 1)) = []
  · rw [if_neg (not_not_intro hstrip)] at hnh ⊢
    have hg1 : ∀ b : Bool, ¬(b = true ∧
        replyIsHedging cfg.hedgingPhrases fallbackReply = true) :=
      fun b hc => by simp [hnh] at hc
    have hg2 : ∀ (p q w : Prop), ¬(p ∧ q ∧ w ∧
        replyIsHedging cfg.hedgingPhrases fallbackReply = true) :=
      fun p q w hc => by simp [hnh] at hc
    rw [if_neg (hg1 _)]
    dsimp only
    rw [if_neg (hg2 _ _ _)]
  · rw [if_pos hstrip] at hnh ⊢
    have hg1 : ∀ b : Bool, ¬(b = true ∧ replyIsHedging cfg.hedgingPhrases
        (stripThinking (genToolsTextAt env (cfg.maxIterations - 1))) = true) :=
      fun b hc => by simp [hnh] at hc
    have hg2 : ∀ (p q w : Prop), ¬(p ∧ q ∧ w ∧ replyIsHedging cfg.hedgingPhrases
        (stripThinking (genToolsTextAt env (cfg.maxIterations - 1))) = true) :=
      fun p q w hc => by simp [hnh] at hc
    rw [if_neg (hg1 _)]
    dsimp only
    rw [if_neg (hg2 _ _ _)]

/-- C4 counterexample: with two iterations, the first producing the
nonempty preface "partial answer" alongside its tool calls and the
second producing tool calls with empty text, the loop exhausts without a
text reply; the claim predicts the reply "partial answer" (the last
nonempty model text of the loop), but `chat` returns the fixed fallback
string. -/
theorem C4_last_text_counterexample :
    (chatLoop c4Cfg c4Env c4Cfg.maxIterations
      { hist := trimHistory c4Cfg.maxHistory [mkUserMsg "q".data] }).2 =
        .exhausted ∧
    stripThinking (genToolsTextAt c4Env 0) = "partial answer".data ∧
    (chat c4Cfg c4Env [] "q".data).result = .ok fallbackReply ∧
    fallbackReply ≠ "partial answer".data := by
  refine ⟨rfl, rfl, rfl, by decide⟩

/-- Witness for C4 at a concrete two-iteration run whose final iteration
carries the preface "final text". -/
theorem C4_exhausted_reply_witness :
    (chat { maxIterations := 2, hedgingPhrases := [], tools := [] }
      { genTools := fun n =>
          .ok (if n = 0 then "partial".data else "final text".data,
            [⟨[], "x".data, []⟩])
        gen := fun _ => .ok []
        dispatchFn := fun _ _ _ => .ok []
        parseTextToolCalls := fun _ => []
        webSearch := fun _ => .ok none }
      [] "q".data).result = .ok "final text".data := by
  have h := C4_exhausted_reply
    { maxIterations := 2, hedgingPhrases := [], tools := [] }
    { genTools := fun n =>
        .ok (if n = 0 then "partial".data else "final text".data,
          [⟨[], "x".data, []⟩])
      gen := fun _ => .ok []
      dispatchFn := fun _ _ _ => .ok []
      parseTextToolCalls := fun _ => []
      webSearch := fun _ => .ok none }
    [] "q".data (by decide)
    (by
      intro i hi
      refine ⟨if i = 0 then "partial".data else "final text".data,
        [⟨[], "x".data, []⟩], rfl, by decide⟩)
    (by decide)
  simpa using h

/-- C2: a workflow execution appends exactly one user / assistant pair to
the orchestrator history — the original input and the returned reply; no
tool-role messages or tool groups are persisted, and the prior history is
untouched. -/
theorem C2_workflow_appends_pair (cfg : OrchConfig) (env : WfEnv)
    (wf : WorkflowDef) (input : Str) (hist : List Msg) :
    (executeWorkflow cfg env wf input hist).hist =
      hist ++ [mkUserMsg input,
        mkAssistantMsg (executeWorkflow cfg env wf input hist).reply] ∧
    (executeWorkflow cfg env wf input hist).hist.length = hist.length + 2 ∧
    (executeWorkflow cfg env wf input hist).hist.take hist.length = hist ∧
    (∀ m ∈ (executeWorkflow cfg env wf input hist).hist.drop hist.length,
      m.role ≠ .tool ∧ m.toolCalls = []) := by
  have h1 : (executeWorkflow cfg env wf input hist).hist =
      hist ++ [mkUserMsg input,
        mkAssistantMsg (executeWorkflow cfg env wf input hist).reply] := rfl
  refine ⟨h1, ?_, ?_, ?_⟩
  · rw [h1, List.length_append]
    rfl
  · rw [h1, List.take_left]
  · rw [h1, List.drop_left]
    intro m hm
    rcases List.mem_cons.mp hm with h | h
    · subst h
      exact ⟨by simp [mkUserMsg], rfl⟩
    · rcases List.mem_cons.mp h with h2 | h2
      · subst h2
        exact ⟨by simp [mkAssistantMsg], rfl⟩
      · simp at h2

/-- Witness for C2 at a concrete fact-check run over a nonempty prior
history. -/
theorem C2_workflow_appends_pair_witness :
    (executeWorkflow wfCfg wfEnv factCheck "is it true".data
      [mkUserMsg "old".data]).hist =
      [mkUserMsg "old".data] ++ [mkUserMsg "is it true".data,
        mkAssistantMsg (executeWorkflow wfCfg wfEnv factCheck "is it true".data
          [mkUserMsg "old".data]).reply] ∧
    (executeWorkflow wfCfg wfEnv factCheck "is it true".data
      [mkUserMsg "old".data]).hist.length = 3 := by
  have h := C2_workflow_appends_pair wfCfg wfEnv factCheck "is it true".data
    [mkUserMsg "old".data]
  exact ⟨h.1, h.2.1⟩

theorem activeIds_nil : activeIds [] = [] := rfl

theorem activeIds_append (a b : List WfEvent) :
    activeIds (a ++ b) = activeIds a ++ activeIds b := by
  simp [activeIds]

theorem activeIds_cons_state (i s : Str) (rest : List WfEvent) :
    activeIds (.stateEvt i s :: rest) =
      (if s = "active".data then [i] else []) ++ activeIds rest := by
  simp only [activeIds, List.filterMap_cons]
  split_ifs with h <;> simp

theorem activeIds_cons_loopUpdate (i : Str) (c : List Str) (a : Int)
    (rest : List WfEvent) :
    activeIds (.loopUpdate i c a :: rest) = activeIds rest := by
  simp [activeIds, List.filterMap_cons]

theorem activeIds_cons_activity (t : Str) (rest : List WfEvent) :
    activeIds (.activity t :: rest) = activeIds rest := by
  simp [activeIds, List.filterMap_cons]

theorem activeIds_cons_narration (t : Str) (rest : List WfEvent) :
    activeIds (.narration t :: rest) = activeIds rest := by
  simp [activeIds, List.filterMap_cons]

theorem activeIds_cons_start (i : Str) (rest : List WfEvent) :
    activeIds (.startEvt i :: rest) = activeIds rest := by
  simp [activeIds, List.filterMap_cons]

theorem activeIds_cons_exit (i : Str) (rest : List WfEvent) :
    activeIds (.exitEvt i :: rest) = activeIds rest := by
  simp [activeIds, List.filterMap_cons]

/-- One loop iteration contributes exactly one `active` event, carrying
the loop step's id. -/
theorem loopIter_activeIds (cfg : OrchConfig) (env : WfEnv)
    (step : WorkflowStep) (queries : List Str)
    (acc : WfExecState × List Str) (iq : Nat × Str) :
    activeIds (loopIter cfg env step queries acc iq).1.events =
      activeIds acc.1.events ++ [step.id] := by
  simp only [loopIter, emitEvt]
  split_ifs with h
  · cases hd : env.dispatch (acc.1.dispCount) step.toolName iq.2 <;>
      simp [activeIds_append, activeIds_cons_state, activeIds_cons_loopUpdate,
        activeIds_cons_activity, activeIds_nil]
  · simp [activeIds_append, activeIds_cons_state, activeIds_cons_loopUpdate,
      activeIds_cons_activity, activeIds_nil]

/-- Folding the loop iterations appends one `active` event per query. -/
theorem loopFold_activeIds (cfg : OrchConfig) (env : WfEnv)
    (step : WorkflowStep) (queries : List Str) :
    ∀ (l : List (Nat × Str)) (st0 : WfExecState) (acc : List Str),
      activeIds ((l.foldl (loopIter cfg env step queries) (st0, acc)).1.events) =
        activeIds st0.events ++ List.replicate l.length step.id := by
  intro l
  induction l with
  | nil => intro st0 acc; simp
  | cons p rest ih =>
    intro st0 acc
    rw [List.foldl_cons]
    rcases hone : loopIter cfg env step queries (st0, acc) p with ⟨st1, acc1⟩
    have h1 : activeIds st1.events = activeIds st0.events ++ [step.id] := by
      have := loopIter_activeIds cfg env step queries (st0, acc) p
      rw [hone] at this
      exact this
    rw [ih st1 acc1, h1]
    simp [List.length_cons, List.replicate_succ, List.append_assoc]

/-- The events a single step execution emits beyond the state on entry
carry only the step's own id as `active` events (one per loop query, none
for llm/direct steps). -/
theorem execStep_activeIds (cfg : OrchConfig) (env : WfEnv)
    (step : WorkflowStep) (st : WfExecState) :
    ∃ k, activeIds (execStep cfg env step st).1.events =
      activeIds st.events ++ List.replicate k step.id := by
  have hnarr : activeIds (if step.narration ≠ [] then
      emitEvt (.narration (renderTemplate env.clock step.narration st.ctx)) st
      else st).events = activeIds st.events := by
    split_ifs with h
    · simp [emitEvt, activeIds_append, activeIds_cons_narration, activeIds_nil]
    · rfl
  set st1 := (if step.narration ≠ [] then
    emitEvt (.narration (renderTemplate env.clock step.narration st.ctx)) st
    else st) with hst1
  have hllm : ∀ (s2 : WfExecState), activeIds (execLlmStep cfg env step s2).1.events =
      activeIds s2.events := by
    intro s2
    unfold execLlmStep
    simp only [emitEvt]
    cases hl : env.llm (s2.llmCount) with
    | error e =>
      simp [activeIds_append, activeIds_cons_activity, activeIds_nil]
    | ok raw =>
      simp only []
      generalize stripThinking raw = text
      generalize maybeParseJson env.jsonLoads text = parsed
      generalize pyStripChars ['\x27'] (pyStripChars ['"'] (pyStripWs text)) = sq
      split_ifs with h1 h2 h3 h4 h5 <;>
        first
        | (cases parsed with
           | none =>
             simp [storeStepResult, activeIds_append,
               activeIds_cons_activity, activeIds_nil]
           | some j =>
             cases j <;>
               simp [storeStepResult, activeIds_append,
                 activeIds_cons_activity, activeIds_nil])
        | (cases hd : env.dispatch s2.dispCount step.toolName sq <;>
           simp [storeStepResult, activeIds_append,
             activeIds_cons_activity, activeIds_nil, hd])
  have hdirect : activeIds (execDirectStep cfg env step st1).1.events =
      activeIds st1.events := by
    simp only [execDirectStep, emitEvt]
    split_ifs with h1 h2 h3
    · simp [storeStepResult]
    · cases hd : env.dispatch st1.dispCount step.toolName
        (st1.ctx.searchQueries.getD 0 []) <;>
        simp [storeStepResult, activeIds_append,
          activeIds_cons_activity, activeIds_nil, hd]
    · cases hd : env.dispatch st1.dispCount step.toolName
        (st1.ctx.searchQueries.getD 1 []) <;>
        simp [storeStepResult, activeIds_append,
          activeIds_cons_activity, activeIds_nil, hd]
    · cases hd : env.dispatch st1.dispCount step.toolName st1.ctx.userQuery <;>
        simp [storeStepResult, activeIds_append,
          activeIds_cons_activity, activeIds_nil, hd]
  have hloop : ∃ k, activeIds (execLoopStep cfg env step st1).1.events =
      activeIds st1.events ++ List.replicate k step.id := by
    simp only [execLoopStep]
    split_ifs with h1
    · exact ⟨0, by simp⟩
    · refine ⟨st1.ctx.searchQueries.length, ?_⟩
      have hfold := loopFold_activeIds cfg env step st1.ctx.searchQueries
        (st1.ctx.searchQueries.enum)
        (emitEvt (.loopUpdate step.id st1.ctx.searchQueries (-1)) st1) []
      rw [hfold]
      simp [emitEvt, activeIds_append, activeIds_cons_loopUpdate, activeIds_nil,
        List.enum_length]
  unfold execStep
  rw [← hst1]
  split_ifs with h1 h2 h3
  · exact ⟨0, by rw [hllm st1, hnarr]; simp⟩
  · obtain ⟨k, hk⟩ := hloop
    exact ⟨k, by rw [hk, hnarr]⟩
  · exact ⟨0, by rw [hdirect, hnarr]; simp⟩
  · exact ⟨0, by simpa using hnarr⟩

/-- On an exception-free run, the `active` events of the step loop are,
in order, one block per declared step: the step's own entry event plus
one event per loop query, all carrying the step's id. -/
theorem runSteps_activeIds (cfg : OrchConfig) (env : WfEnv) :
    ∀ (steps : List WorkflowStep) (st : WfExecState),
      (runSteps cfg env steps st).2 = none →
      ∃ ks : List Nat, ks.length = steps.length ∧
        activeIds (runSteps cfg env steps st).1.events =
          activeIds st.events ++
            (List.zip steps ks).flatMap
              (fun p => p.1.id :: List.replicate p.2 p.1.id) := by
  intro steps
  induction steps with
  | nil =>
    intro st _
    exact ⟨[], rfl, by simp [runSteps]⟩
  | cons step rest ih =>
    intro st hok
    rw [runSteps] at hok ⊢
    rcases hse : (execStep cfg env step
      (emitEvt (.stateEvt step.id "active".data) st)).2 with _ | e
    · simp only [hse] at hok ⊢
      obtain ⟨k, hk⟩ := execStep_activeIds cfg env step
        (emitEvt (.stateEvt step.id "active".data) st)
      obtain ⟨ks, hlen, hrec⟩ := ih _ hok
      refine ⟨k :: ks, by simp [hlen], ?_⟩
      rw [hrec]
      simp only [emitEvt, activeIds_append] at hk ⊢
      rw [hk]
      rw [show activeIds [WfEvent.stateEvt step.id
          ['v', 'i', 's', 'i', 't', 'e', 'd']] = [] from
        by simp [activeIds, List.filterMap_cons]]
      rw [show activeIds [WfEvent.stateEvt step.id
          ['a', 'c', 't', 'i', 'v', 'e']] = [step.id] from
        by simp [activeIds, List.filterMap_cons]]
      simp [List.zip_cons_cons, List.flatMap_cons, List.append_assoc]
    · simp [hse] at hok

/-- Collapsing a run of one repeated id followed by a tail that starts
differently. -/
theorem collapseDups_run (a : Str) :
    ∀ (k : Nat) (tail : List Str),
      (tail = [] ∨ ∃ b t2, tail = b :: t2 ∧ a ≠ b) →
      collapseDups (a :: (List.replicate k a ++ tail)) =
        a :: collapseDups tail := by
  intro k
  induction k with
  | zero =>
    intro tail htail
    rcases htail with h | ⟨b, t2, rfl, hab⟩
    · subst h; rfl
    · simp only [List.replicate, List.nil_append, collapseDups]
      rw [if_neg hab]
  | succ k ih =>
    intro tail htail
    rw [List.replicate_succ]
    show collapseDups (a :: a :: (List.replicate k a ++ tail)) = _
    rw [collapseDups]
    rw [if_pos rfl]
    exact ih tail htail

/-- Collapsing the concatenation of blocks, one per pair, when adjacent
block ids differ. -/
theorem collapseDups_blocks :
    ∀ (ps : List (Str × Nat)),
      (ps.map Prod.fst).Chain' (· ≠ ·) →
      collapseDups (ps.flatMap fun p => p.1 :: List.replicate p.2 p.1) =
        ps.map Prod.fst := by
  intro ps
  induction ps with
  | nil => intro _; rfl
  | cons p rest ih =>
    intro hch
    rw [List.flatMap_cons, List.map_cons]
    simp only [List.cons_append]
    rw [collapseDups_run p.1 p.2]
    · congr 1
      exact ih (List.chain'_cons'.mp (by simpa using hch)).2
    · cases rest with
      | nil => left; rfl
      | cons q rest2 =>
        right
        have hh : p.1 ≠ q.1 ∧
            (q.1 :: rest2.map Prod.fst).Chain' (· ≠ ·) := by
          simpa [List.chain'_cons] using hch
        refine ⟨q.1, List.replicate q.2 q.1 ++
          rest2.flatMap (fun p2 => p2.1 :: List.replicate p2.2 p2.1), ?_, hh.1⟩
        simp [List.flatMap_cons]

/-- C3 as amended: on an exception-free workflow execution, the state ids
carried by `workflow_state(active)` events, with consecutive repeats
collapsed, equal exactly the ordered step id sequence of the matched
template (loop steps emit one additional `active` event per derived
query), and the `workflow_exit` event is the last event emitted, after
all of them. -/
theorem C3_active_events_follow_steps (cfg : OrchConfig) (env : WfEnv)
    (wf : WorkflowDef) (input : Str) (hist : List Msg)
    (hok : (runSteps cfg env wf.steps
      { ctx := { workflowId := wf.id, userQuery := input }
        events := [.startEvt wf.id] }).2 = none)
    (hids : (wf.steps.map (fun s => s.id)).Chain' (· ≠ ·)) :
    collapseDups (activeIds
      (executeWorkflow cfg env wf input hist).events) =
      wf.steps.map (fun s => s.id) ∧
    (executeWorkflow cfg env wf input hist).events.getLast? =
      some (.exitEvt wf.id) := by
  obtain ⟨ks, hlen, hact⟩ := runSteps_activeIds cfg env wf.steps
    { ctx := { workflowId := wf.id, userQuery := input }
      events := [.startEvt wf.id] } hok
  constructor
  · have hev : (executeWorkflow cfg env wf input hist).events =
        (runSteps cfg env wf.steps
          { ctx := { workflowId := wf.id, userQuery := input }
            events := [.startEvt wf.id] }).1.events ++ [.exitEvt wf.id] := rfl
    rw [hev, activeIds_append, hact]
    rw [show activeIds [WfEvent.exitEvt wf.id] = [] from rfl]
    rw [show activeIds [WfEvent.startEvt wf.id] = [] from rfl]
    rw [List.append_nil, List.nil_append]
    have hzip : ((List.zip wf.steps ks).map
        (fun p => (p.1.id, p.2))).map Prod.fst = wf.steps.map (fun s => s.id) := by
      calc ((List.zip wf.steps ks).map (fun p => (p.1.id, p.2))).map Prod.fst
          = ((List.zip wf.steps ks).map Prod.fst).map (fun s => s.id) := by
            rw [List.map_map, List.map_map]
            rfl
        _ = wf.steps.map (fun s => s.id) := by
            rw [List.map_fst_zip wf.steps ks (by omega)]
    have hflat : (List.zip wf.steps ks).flatMap
        (fun p => p.1.id :: List.replicate p.2 p.1.id) =
        ((List.zip wf.steps ks).map (fun p => (p.1.id, p.2))).flatMap
          (fun p => p.1 :: List.replicate p.2 p.1) := by
      rw [List.flatMap_map]
    rw [hflat]
    rw [collapseDups_blocks _ (by rw [hzip]; exact hids)]
    exact hzip
  · have hev : (executeWorkflow cfg env wf input hist).events =
        (runSteps cfg env wf.steps
          { ctx := { workflowId := wf.id, userQuery := input }
            events := [.startEvt wf.id] }).1.events ++ [.exitEvt wf.id] := rfl
    rw [hev]
    simp

/-- C3 counterexample to the literal claim: on a `research_compare` run
whose decompose step yields one derived query, the loop step emits an
`active` event for the step itself and one more per derived query, so the
raw sequence of `active` state ids repeats `search_each` and is not equal
to the template's step id sequence. -/
theorem C3_duplicate_active_counterexample :
    activeIds (executeWorkflow wfCfg wfEnv researchCompare
        "compare top stocks".data []).events =
      [ "initial_lookup".data, "decompose".data, "search_each".data,
        "search_each".data, "synthesize".data ] ∧
    researchCompare.steps.map (fun s => s.id) =
      [ "initial_lookup".data, "decompose".data, "search_each".data,
        "synthesize".data ] ∧
    activeIds (executeWorkflow wfCfg wfEnv researchCompare
        "compare top stocks".data []).events ≠
      researchCompare.steps.map (fun s => s.id) := by
  refine ⟨rfl, rfl, ?_⟩
  intro h
  rw [show activeIds (executeWorkflow wfCfg wfEnv researchCompare
      "compare top stocks".data []).events =
    [ "initial_lookup".data, "decompose".data, "search_each".data,
      "search_each".data, "synthesize".data ] from rfl] at h
  exact absurd (congrArg List.length h) (by decide)

/-- Witness: the amended C3 theorem applied to a concrete exception-free
`research_compare` execution. -/
theorem C3_active_events_follow_steps_witness :
    (runSteps wfCfg wfEnv researchCompare.steps
      { ctx := { workflowId := researchCompare.id
                 userQuery := "compare top stocks".data }
        events := [.startEvt researchCompare.id] }).2 = none ∧
    (researchCompare.steps.map (fun s => s.id)).Chain' (· ≠ ·) ∧
    (collapseDups (activeIds
        (executeWorkflow wfCfg wfEnv researchCompare
          "compare top stocks".data []).events) =
      researchCompare.steps.map (fun s => s.id) ∧
    (executeWorkflow wfCfg wfEnv researchCompare
        "compare top stocks".data []).events.getLast? =
      some (.exitEvt researchCompare.id)) := by
  have hids : (researchCompare.steps.map (fun s => s.id)).Chain' (· ≠ ·) := by
    rw [show researchCompare.steps.map (fun s => s.id) =
      [ "initial_lookup".data, "decompose".data, "search_each".data,
        "synthesize".data ] from rfl]
    exact .cons (by decide) (.cons (by decide)
      (.cons (by decide) (List.chain'_singleton _)))
  exact ⟨rfl, hids,
    C3_active_events_follow_steps wfCfg wfEnv researchCompare
      "compare top stocks".data [] rfl hids⟩

end AgentCore
